import Mathlib

/-
Verification development for the devtools-debugger MCP server
(`src/index.ts`).  The TypeScript source is shallowly embedded: the
module-level mutable session variables become a `DebugState` record, each
MCP tool handler becomes a pure function from a state (plus the replies the
target debugger would deliver) to a new state and a structured response,
and side effects towards the child process / CDP socket are recorded in an
append-only action log inside the state.  String-keyed JS records are
modelled as insertion-ordered association lists over their own keys.
-/

set_option linter.unusedVariables false

/-- Left brace character (written via its code point so that brace
handling inside strings stays uniform). -/
def lbrace : Char := Char.ofNat 123

/-- Right brace character. -/
def rbrace : Char := Char.ofNat 125

/-- Backtick character. -/
def btick : Char := Char.ofNat 96

/-- Dollar character. -/
def dollar : Char := Char.ofNat 36

/-- JS primitive values carried in CDP `RemoteObject.value` slots. -/
inductive Prim where
  | str (s : String)
  | num (n : Int)
  | boolVal (b : Bool)
  | nullVal
deriving DecidableEq

/-- JS string coercion of a primitive, as used by template literals. -/
def Prim.toJs : Prim → String
  | .str s => s
  | .num n => toString n
  | .boolVal b => if b then "true" else "false"
  | .nullVal => "null"

/-- CDP `Runtime.RemoteObject`: an opaque handle plus optional metadata. -/
structure RemoteObject where
  type : String
  className : Option String := none
  description : Option String := none
  value : Option Prim := none
  objectId : Option String := none
deriving DecidableEq

/-- One entry of a CDP `Runtime.getProperties` reply. -/
structure PropDesc where
  name : String
  value : Option RemoteObject := none
deriving DecidableEq

/-- CDP `Debugger.Location` (0-based coordinates, column optional). -/
structure Location where
  scriptId : String
  lineNumber : Nat
  columnNumber : Option Nat := none
deriving DecidableEq

/-- CDP scope descriptor inside a call frame (`scopeChain` element);
`object` may lack an `objectId`, which the source skips over. -/
structure ScopeDesc where
  type : String
  objectId : Option String := none
deriving DecidableEq

/-- CDP `Debugger.CallFrame` as consumed by the source. -/
structure CallFrame where
  callFrameId : String
  functionName : String := ""
  url : String := ""
  location : Location
  scopeChain : List ScopeDesc := []
  thisObj : Option RemoteObject := none
deriving DecidableEq

/-- CDP `Debugger.paused` event parameters. -/
structure PausedEvent where
  reason : String
  callFrames : List CallFrame
deriving DecidableEq

/-- JS `a || b` on strings (empty string is falsy). -/
def jsOrS (a b : String) : String := if a = "" then b else a

/-- JS truthiness filter on an optional string: `some ""` is falsy. -/
def optTruthy (o : Option String) : Option String :=
  match o with
  | some s => if s = "" then none else some s
  | none => none

/-- Own-key lookup in a JS record modelled as an association list. -/
def objGet (m : List (String × α)) (k : String) : Option α :=
  (m.find? (fun e => e.1 = k)).map (·.2)

/-- JS record assignment `m[k] = v`: update in place when the key exists,
otherwise append (insertion order preserved, as `Object.entries` shows). -/
def objSet : List (String × α) → String → α → List (String × α)
  | [], k, v => [(k, v)]
  | (k', v') :: rest, k, v =>
    if k' = k then (k, v) :: rest else (k', v') :: objSet rest k v

/-- Pause-id minting scheme of the source: the string `'p' + counter`. -/
def mkPid (n : Nat) : String := "p" ++ toString n

/-- Escape backticks, the embedding of `msg.replace(/`/g, '\\`')` at the
character-list level (the pattern is a single character, so the regex is a
per-character substitution). -/
def escBtL : List Char → List Char
  | [] => []
  | c :: cs => if c = btick then '\\' :: btick :: escBtL cs else c :: escBtL cs

/-- Interpolation step of `add_logpoint`, embedding the global regex
replacement `msg.replace(/\x7b([^\x7d]+)\x7d/g, '$\x7b$1\x7d')` as a
left-to-right scan: at `\x7b`, a non-empty run of non-`\x7d` characters
followed by `\x7d` is rewritten to `$\x7b run \x7d`, otherwise the brace
is literal and the scan continues one character further. -/
def interpSegs (cs : List Char) : List Char :=
  match cs with
  | [] => []
  | c :: rest =>
    if c = lbrace then
      match hm : rest.dropWhile (fun d => d ≠ rbrace) with
      | [] => c :: interpSegs rest
      | _ :: tail =>
        have htail : tail.length < rest.length + 1 := by
          have h1 : (rest.dropWhile (fun d => d ≠ rbrace)).length ≤ rest.length :=
            (List.dropWhile_sublist _).length_le
          rw [hm] at h1
          simp only [List.length_cons] at h1
          omega
        let run := rest.takeWhile (fun d => d ≠ rbrace)
        if run.isEmpty then c :: interpSegs rest
        else dollar :: lbrace :: (run ++ rbrace :: interpSegs tail)
    else c :: interpSegs rest
termination_by cs.length
decreasing_by
  all_goals simp only [List.length_cons]
  all_goals omega

/-- The condition string installed by `add_logpoint` (`toCondition` in the
source): a template literal printing the interpolated message, sequenced
with `false`. -/
def toCondition (msg : String) : String :=
  let tpl : String := String.mk (btick :: (interpSegs (escBtL msg.data) ++ [btick]))
  "console.log(" ++ tpl ++ "); false"

/-- The two kinds of `Debugger.paused` listeners the source registers on
the CDP client: the one installed by `start_node_debug` (records the event
as `lastPausedParams` only) and the ones installed by the execution-control
tools (record the event, mint a fresh pause id, store it in the catalog and
mark it current).  No listener is ever removed. -/
inductive ListenerKind where
  | startL
  | mintL
deriving DecidableEq

/-- CDP commands the source sends to the target. -/
inductive CdpCmd where
  | debuggerEnable
  | runtimeEnable
  | runIfWaiting
  | setBreakpointByUrl (url : Option String) (urlRegex : Option String)
      (lineNumber : Int) (columnNumber : Int) (condition : Option String)
  | setPauseOnExceptions (state : String)
  | setBlackboxPatterns (patterns : List String)
  | getScriptSource (scriptId : String)
  | continueToLoc (scriptId : String) (lineNumber : Int) (columnNumber : Int)
  | restartFrameCmd (callFrameId : String)
  | getProperties (objectId : String) (ownProperties : Bool)
  | evaluateOnCallFrame (callFrameId : String) (expression : String) (returnByValue : Bool)
  | resumeCmd
  | stepOverCmd
  | stepIntoCmd
  | stepOutCmd
deriving DecidableEq

/-- Externally visible side effects, recorded in an append-only log. -/
inductive ExtAction where
  | spawnChild (scriptPath : String)
  | killChild
  | closeClient
  | send (cmd : CdpCmd)
deriving DecidableEq

/-- The module-level mutable session variables of the source, plus the
listener list living on the current CDP client and the side-effect log.
`clientActive`/`processActive` model whether `nodeDebugClient`/`nodeProcess`
are non-null. -/
structure DebugState where
  clientActive : Bool := false
  processActive : Bool := false
  scriptIdToUrl : List (String × String) := []
  consoleMessages : List String := []
  lastPausedParams : Option PausedEvent := none
  pauseCounter : Nat := 0
  pauseMap : List (String × PausedEvent) := []
  currentPauseId : Option String := none
  pausedListeners : List ListenerKind := []
  log : List ExtAction := []
deriving DecidableEq

/-- The state at server startup: everything null/empty, counter zero. -/
def initState : DebugState := {}

/-- The body of the pause listener registered by every execution-control
tool: record the event, mint `'p' + ++pauseCounter`, store the snapshot,
mark it current. -/
def mintPause (ev : PausedEvent) (st : DebugState) : DebugState :=
  let n := st.pauseCounter + 1
  let pid := mkPid n
  { st with lastPausedParams := some ev, pauseCounter := n,
            currentPauseId := some pid, pauseMap := objSet st.pauseMap pid ev }

/-- Run one registered listener on a `Debugger.paused` event. -/
def runListener (l : ListenerKind) (ev : PausedEvent) (st : DebugState) : DebugState :=
  match l with
  | .startL => { st with lastPausedParams := some ev }
  | .mintL => mintPause ev st

/-- Delivery of one `Debugger.paused` event: every registered listener runs,
in registration order. -/
def firePaused (ev : PausedEvent) (st : DebugState) : DebugState :=
  st.pausedListeners.foldl (fun s l => runListener l ev s) st

/-- Summary of one call frame (`summarizeFrame` in the source): function
name nulled when empty, url resolved through the script catalog, 1-based
line and column. -/
structure FrameSummary where
  functionName : Option String
  url : String
  line : Nat
  column : Nat
deriving DecidableEq

/-- The source's `summarizeFrame`, parameterised by the script catalog. -/
def summarizeFrame (m : List (String × String)) (f : CallFrame) : FrameSummary :=
  { functionName := optTruthy (some f.functionName)
    url := jsOrS f.url (jsOrS ((objGet m f.location.scriptId).getD "") "<unknown>")
    line := f.location.lineNumber + 1
    column := f.location.columnNumber.getD 0 + 1 }

/-- The `value ?? description` slot of a property summary. -/
inductive ValSlot where
  | fromValue (p : Prim)
  | fromDescription (s : String)
  | absent
deriving DecidableEq

/-- JS `ro?.value ?? ro?.description` (note `??` also skips a null value). -/
def valOrDesc (ro? : Option RemoteObject) : ValSlot :=
  match ro? with
  | none => .absent
  | some ro =>
    match ro.value with
    | some .nullVal =>
      match ro.description with
      | some d => .fromDescription d
      | none => .absent
    | some p => .fromValue p
    | none =>
      match ro.description with
      | some d => .fromDescription d
      | none => .absent

/-- Property summary used by the execution-control tools and
`get_object_properties`. -/
structure VarOut where
  name : String
  type : Option String
  value : ValSlot
  objectId : Option String
deriving DecidableEq

/-- Map one `getProperties` entry to the summary the source builds. -/
def toVarOut (p : PropDesc) : VarOut :=
  { name := p.name
    type := p.value.map (·.type)
    value := valOrDesc p.value
    objectId := p.value.bind (·.objectId) }

/-- Per-scope output of the execution-control tools and `inspect_scopes`;
`truncated` records whether the JSON carries a `truncated: true` flag. -/
structure ScopeOut where
  type : String
  vars : List VarOut
  truncated : Bool := false
deriving DecidableEq

/-- Reply table for `Runtime.getProperties`: the own properties the target
would report for each object id. -/
abbrev PropsEnv : Type := List (String × List PropDesc)

/-- Look up the properties the target reports for an object id. -/
def propsFor (env : PropsEnv) (oid : String) : List PropDesc :=
  (objGet env oid).getD []

/-- Scope snapshot built inline by `resume_execution`/`step_*` when
`includeScopes` is set: every scope with a truthy object id contributes up
to 15 own properties; there is no special case for the global scope. -/
def buildScopesExec (env : PropsEnv) (f : CallFrame) : List ScopeOut :=
  f.scopeChain.filterMap fun s =>
    match optTruthy s.objectId with
    | none => none
    | some oid =>
      some { type := s.type, vars := ((propsFor env oid).take 15).map toVarOut }

/-- The `getProperties` commands the `includeScopes` loop sends. -/
def scopeSends (f : CallFrame) : List ExtAction :=
  f.scopeChain.filterMap fun s =>
    (optTruthy s.objectId).map (fun oid => ExtAction.send (.getProperties oid true))

/-- The `typeof` tag of a primitive. -/
def primTypeof : Prim → String
  | .str _ => "string"
  | .num _ => "number"
  | .boolVal _ => "boolean"
  | .nullVal => "object"

/-- Summary of one property value in `inspect_scopes` (`summarizeValue` in
the source): a present value (even null) is reported with its `typeof`,
otherwise type/description/className/objectId of the handle. -/
inductive InspectVal where
  | undefVal
  | primVal (type : String) (value : Prim)
  | objVal (type : String) (description : Option String)
      (className : Option String) (objectId : Option String)
deriving DecidableEq

/-- The source's `summarizeValue`. -/
def summarizeValue (v? : Option RemoteObject) : InspectVal :=
  match v? with
  | none => .undefVal
  | some v =>
    match v.value with
    | some p => .primVal (primTypeof p) p
    | none => .objVal v.type v.description v.className v.objectId

/-- One named entry of an `inspect_scopes` property list. -/
structure InspectEntry where
  name : String
  val : InspectVal
deriving DecidableEq

/-- The source's `listProps`: up to `maxProps` own properties. -/
def listPropsInspect (env : PropsEnv) (maxProps : Nat) (oid : String) : List InspectEntry :=
  ((propsFor env oid).take maxProps).map (fun p => { name := p.name, val := summarizeValue p.value })

/-- Per-scope output of `inspect_scopes`. -/
structure InspectScopeOut where
  type : String
  vars : List InspectEntry
  truncated : Bool := false
deriving DecidableEq

/-- Receiver summary of `inspect_scopes`. -/
structure ThisOut where
  val : InspectVal
  preview : Option (List InspectEntry) := none
deriving DecidableEq

/-- Payload of `inspect_scopes`. -/
structure InspectPayload where
  frame : FrameSummary
  thisSummary : Option ThisOut
  scopes : List InspectScopeOut
deriving DecidableEq

/-- Location block of `get_pause_info` (1-based coordinates). -/
structure PauseLocation where
  url : String
  line : Nat
  column : Nat
deriving DecidableEq

/-- Payload of `get_pause_info`. -/
structure PauseInfoPayload where
  reason : String
  pauseId : Option String
  location : PauseLocation
  functionName : Option String
  scopeTypes : List String
deriving DecidableEq

/-- One frame of `list_call_stack` (frame summary plus optional receiver
type tag). -/
structure StackFrameOut where
  frame : FrameSummary
  thisType : Option String := none
deriving DecidableEq

/-- Payload of the execution-control tools on a pause result. -/
structure ExecPayload where
  status : String
  pauseId : Option String
  frame : FrameSummary
  consoleOutput : Option (List String) := none
  stack : Option (List FrameSummary) := none
  scopes : Option (List ScopeOut) := none
deriving DecidableEq

/-- Structured tool responses.  `errText` is a response with the
`isError: true` flag; `thrownError` models an exception escaping a handler
that has no try/catch.  The `ok*` constructors are the JSON payloads the
source builds (serialisation by `mcpContent` is injective on them). -/
inductive ToolResponse where
  | errText (msg : String)
  | okText (msg : String)
  | okStatus (status : String)
  | okStart (status : String) (pauseId : String) (frame : FrameSummary)
  | okExec (p : ExecPayload)
  | okBp (breakpointId : String) (locations : List Location) (kind : Option String)
  | okState (state : String)
  | okPatterns (patterns : List String)
  | okScripts (scripts : List (String × String))
  | okSource (scriptId : String) (url : Option String) (src : String)
  | okProps (properties : List VarOut)
  | okConsole (consoleOutput : List String)
  | okEval (result : ValSlot) (consoleOutput : List String)
  | okInspect (p : InspectPayload)
  | okStack (frames : List StackFrameOut) (pauseId : Option String)
  | okPauseInfo (p : PauseInfoPayload)
  | thrownError (msg : String)
deriving DecidableEq

/-- Whether a response carries the error flag (or escaped as a crash). -/
def ToolResponse.isError : ToolResponse → Bool
  | .errText _ => true
  | .thrownError _ => true
  | _ => false

/-- Error text shared by tools guarding on an active session. -/
def noSessionMsg : String := "Error: No active debug session."

/-- Error text shared by tools guarding on an active pause. -/
def noPauseMsg : String := "Error: No active pause state."

/-- Error text for a pause id missing from the catalog. -/
def invalidPauseMsg : String := "Error: Invalid pauseId."

/-- Error text for a frame index out of range. -/
def invalidFrameMsg : String := "Error: Invalid frame index."

/-- Stand-in for the V8 TypeError message produced by reading a property
of `undefined` (its exact wording is a runtime detail; only its difference
from the stable error texts above matters). -/
def tyErrUndefined : String := "Cannot read properties of undefined"

/-- Resolve the pause a tool operates on: a truthy `pauseId` is looked up
in the catalog (possibly absent), a falsy one falls back to the last pause. -/
def resolvePause (st : DebugState) (pid? : Option String) : Option PausedEvent :=
  match optTruthy pid? with
  | some pid => objGet st.pauseMap pid
  | none => st.lastPausedParams

/-- Prefix a path with `file://` unless already so prefixed (the prefix
test is done on the character list, which is what
`String.startsWith` decides). -/
def toFileUrl (p : String) : String :=
  if "file://".data.isPrefixOf p.data then p else "file://" ++ p

/-- JS rendering of `nodeProcess?.exitCode` after exit (null if killed by
signal). -/
def exitCodeText : Option Int → String
  | some n => toString n
  | none => "null"

/-- Outcome of the resume-until-pause-or-exit race as decided by the
target: the continue-command is rejected, or the next event is a pause, or
the child exits. -/
inductive RaceOutcome where
  | cmdFail (msg : String)
  | pausedEv (ev : PausedEvent)
  | exited (code : Option Int)
deriving DecidableEq

/-- Outcome of the attach sequence of `start_node_debug` as decided by the
environment. -/
inductive StartOutcome where
  | exitedBeforeAttach
  | cdpConnectFail (msg : String)
  | debuggerEnableFail (msg : String)
  | runtimeEnableFail (msg : String)
  | attached (scriptEvents : List (String × String)) (ev : PausedEvent)
deriving DecidableEq

/-- The `start_node_debug` tool.  On success the start listener records the
first pause and the handler body mints pause id `'p' + ++pauseCounter`; the
script catalog and console buffer are reset but the pause catalog and the
counter are *not*.  On any failure the catch block only reports the error:
nothing is killed, closed or cleared. -/
def startNodeDebug (st : DebugState) (scriptPath : String) (outcome : StartOutcome) :
    DebugState × ToolResponse :=
  if st.clientActive then
    (st, .errText "Error: A debug session is already active.")
  else
    match outcome with
    | .exitedBeforeAttach =>
      ({ st with processActive := true, log := st.log ++ [.spawnChild scriptPath] },
       .errText "Error: Failed to start debug session - Node process exited before debugger attached")
    | .cdpConnectFail m =>
      ({ st with processActive := true, log := st.log ++ [.spawnChild scriptPath] },
       .errText ("Error: Failed to start debug session - " ++ m))
    | .debuggerEnableFail m =>
      ({ st with processActive := true, clientActive := true,
                 pausedListeners := [.startL],
                 log := st.log ++ [.spawnChild scriptPath, .send .debuggerEnable] },
       .errText ("Error: Failed to start debug session - " ++ m))
    | .runtimeEnableFail m =>
      ({ st with processActive := true, clientActive := true,
                 pausedListeners := [.startL],
                 log := st.log ++ [.spawnChild scriptPath, .send .debuggerEnable, .send .runtimeEnable] },
       .errText ("Error: Failed to start debug session - " ++ m))
    | .attached scriptEvents ev =>
      let st1 : DebugState :=
        { st with processActive := true, clientActive := true,
                  pausedListeners := [.startL],
                  scriptIdToUrl :=
                    scriptEvents.foldl (fun m e => if e.2 ≠ "" then objSet m e.1 e.2 else m) [],
                  consoleMessages := [],
                  lastPausedParams := some ev,
                  log := st.log ++ [.spawnChild scriptPath, .send .debuggerEnable,
                                    .send .runtimeEnable, .send .runIfWaiting] }
      match ev.callFrames.head? with
      | none =>
        -- `pausedEvent.callFrames[0]` is undefined, so reading `.location`
        -- throws; the surrounding try/catch reports it and no id is minted.
        (st1, .errText ("Error: Failed to start debug session - " ++ tyErrUndefined))
      | some top =>
        let fileUrl :=
          jsOrS ((objGet st1.scriptIdToUrl top.location.scriptId).getD "")
            (jsOrS top.url "<unknown>")
        let line := top.location.lineNumber + 1
        let n := st.pauseCounter + 1
        let pid := mkPid n
        ({ st1 with pauseCounter := n, currentPauseId := some pid,
                    pauseMap := objSet st1.pauseMap pid ev },
         .okStart ("Debugger attached. Paused at " ++ fileUrl ++ ":" ++ toString line ++
                   " (reason: " ++ ev.reason ++ ").")
           pid (summarizeFrame st1.scriptIdToUrl top))

/-- The `set_breakpoint` tool: 1-based line converted to 0-based, column
fixed to 0, path prefixed with `file://`. -/
def setBreakpoint (st : DebugState) (filePath : String) (line : Int)
    (reply : Except String String) : DebugState × ToolResponse :=
  if !st.clientActive then (st, .errText noSessionMsg)
  else
    let fileUrl := toFileUrl filePath
    let lineNumber := line - 1
    let st1 := { st with
      log := st.log ++ [.send (.setBreakpointByUrl (some fileUrl) none lineNumber 0 none)] }
    match reply with
    | .ok bid =>
      (st1, .okText ("Breakpoint set at " ++ filePath ++ ":" ++ toString line ++
                     " (ID: " ++ bid ++ ")."))
    | .error m => (st1, .errText ("Error: Failed to set breakpoint - " ++ m))

/-- Reply of a successful `Debugger.setBreakpointByUrl`. -/
structure BpReply where
  breakpointId : String
  locations : List Location
deriving DecidableEq

/-- Parameters of `set_breakpoint_condition`. -/
structure SbcParams where
  filePath : Option String := none
  urlRegex : Option String := none
  line : Int
  column : Option Int := none
  condition : String
deriving DecidableEq

/-- The `set_breakpoint_condition` tool.  The line is converted to 0-based
but a supplied column is forwarded unchanged (defaulting to 0).  A truthy
`urlRegex` wins over `filePath`; only when both are falsy does the tool
report the missing locator. -/
def setBreakpointCondition (st : DebugState) (p : SbcParams)
    (reply : Except String BpReply) : DebugState × ToolResponse :=
  if !st.clientActive then (st, .errText noSessionMsg)
  else
    let lineNumber := p.line - 1
    let column := p.column.getD 0
    match optTruthy p.urlRegex with
    | some rx =>
      let st1 := { st with
        log := st.log ++ [.send (.setBreakpointByUrl none (some rx) lineNumber column (some p.condition))] }
      match reply with
      | .ok r => (st1, .okBp r.breakpointId r.locations none)
      | .error m => (st1, .errText ("Error: Failed to set conditional breakpoint - " ++ m))
    | none =>
      match optTruthy p.filePath with
      | some fp =>
        let fileUrl := toFileUrl fp
        let st1 := { st with
          log := st.log ++ [.send (.setBreakpointByUrl (some fileUrl) none lineNumber column (some p.condition))] }
        match reply with
        | .ok r => (st1, .okBp r.breakpointId r.locations none)
        | .error m => (st1, .errText ("Error: Failed to set conditional breakpoint - " ++ m))
      | none => (st, .errText "Error: Provide filePath or urlRegex.")

/-- Parameters of `add_logpoint`. -/
structure LogpointParams where
  filePath : Option String := none
  urlRegex : Option String := none
  line : Int
  column : Option Int := none
  message : String
deriving DecidableEq

/-- The `add_logpoint` tool: a conditional breakpoint whose condition is
`toCondition message`; locator handling as in `set_breakpoint_condition`. -/
def addLogpoint (st : DebugState) (p : LogpointParams)
    (reply : Except String BpReply) : DebugState × ToolResponse :=
  if !st.clientActive then (st, .errText noSessionMsg)
  else
    let condition := toCondition p.message
    let lineNumber := p.line - 1
    let column := p.column.getD 0
    match optTruthy p.urlRegex with
    | some rx =>
      let st1 := { st with
        log := st.log ++ [.send (.setBreakpointByUrl none (some rx) lineNumber column (some condition))] }
      match reply with
      | .ok r => (st1, .okBp r.breakpointId r.locations (some "logpoint"))
      | .error m => (st1, .errText ("Error: Failed to add logpoint - " ++ m))
    | none =>
      match optTruthy p.filePath with
      | some fp =>
        let fileUrl := toFileUrl fp
        let st1 := { st with
          log := st.log ++ [.send (.setBreakpointByUrl (some fileUrl) none lineNumber column (some condition))] }
        match reply with
        | .ok r => (st1, .okBp r.breakpointId r.locations (some "logpoint"))
        | .error m => (st1, .errText ("Error: Failed to add logpoint - " ++ m))
      | none => (st, .errText "Error: Provide filePath or urlRegex.")

/-- The `set_exception_breakpoints` tool. -/
def setExceptionBreakpoints (st : DebugState) (state : String)
    (reply : Except String Unit) : DebugState × ToolResponse :=
  if !st.clientActive then (st, .errText noSessionMsg)
  else
    let st1 := { st with log := st.log ++ [.send (.setPauseOnExceptions state)] }
    match reply with
    | .ok _ => (st1, .okState state)
    | .error m => (st1, .errText ("Error: Failed to set exception breakpoints - " ++ m))

/-- The `blackbox_scripts` tool. -/
def blackboxScripts (st : DebugState) (patterns : List String)
    (reply : Except String Unit) : DebugState × ToolResponse :=
  if !st.clientActive then (st, .errText noSessionMsg)
  else
    let st1 := { st with log := st.log ++ [.send (.setBlackboxPatterns patterns)] }
    match reply with
    | .ok _ => (st1, .okPatterns patterns)
    | .error m => (st1, .errText ("Error: Failed to set blackbox patterns - " ++ m))

/-- The `list_scripts` tool: no session guard, just the catalog. -/
def listScripts (st : DebugState) : DebugState × ToolResponse :=
  (st, .okScripts st.scriptIdToUrl)

/-- The `get_script_source` tool. -/
def getScriptSource (st : DebugState) (scriptId? url? : Option String)
    (reply : Except String String) : DebugState × ToolResponse :=
  if !st.clientActive then (st, .errText noSessionMsg)
  else
    let sid? : Option String :=
      match optTruthy scriptId? with
      | some s => some s
      | none =>
        match optTruthy url? with
        | some u => (st.scriptIdToUrl.find? (fun e => e.2 = u)).map (·.1)
        | none => none
    match optTruthy sid? with
    | none => (st, .errText "Error: Provide scriptId or url.")
    | some sid =>
      let st1 := { st with log := st.log ++ [.send (.getScriptSource sid)] }
      match reply with
      | .ok src => (st1, .okSource sid (optTruthy (objGet st.scriptIdToUrl sid)) src)
      | .error m => (st1, .errText ("Error: Failed to get script source - " ++ m))

/-- The `read_console` tool: take-and-clear the console buffer; no session
guard. -/
def readConsole (st : DebugState) : DebugState × ToolResponse :=
  ({ st with consoleMessages := [] }, .okConsole st.consoleMessages)

/-- The `get_object_properties` tool (getProperties command rejections are
not modelled: no claim depends on them). -/
def getObjectProperties (st : DebugState) (objectId : String) (maxProps : Option Nat)
    (env : PropsEnv) : DebugState × ToolResponse :=
  if !st.clientActive then (st, .errText noSessionMsg)
  else
    let st1 := { st with log := st.log ++ [.send (.getProperties objectId true)] }
    (st1, .okProps (((propsFor env objectId).take (maxProps.getD 50)).map toVarOut))

/-- Optional context bundle flags of the execution-control tools. -/
structure ExecOptions where
  includeScopes : Bool := false
  includeStack : Bool := false
  includeConsole : Bool := false
deriving DecidableEq

/-- State after the exit-waiter wins in `resume_execution`: close the CDP
client and clear *all* session fields except the pause counter. -/
def teardownOnExitResume (st : DebugState) : DebugState :=
  { st with clientActive := false, processActive := false, scriptIdToUrl := [],
            lastPausedParams := none, consoleMessages := [], pauseMap := [],
            currentPauseId := none, log := st.log ++ [.closeClient] }

/-- State after the exit-waiter wins in `step_over`/`step_into`/`step_out`:
close the CDP client and clear the same fields *except* that the pause
catalog and the current pause id are left untouched. -/
def teardownOnExitStep (st : DebugState) : DebugState :=
  { st with clientActive := false, processActive := false, scriptIdToUrl := [],
            lastPausedParams := none, consoleMessages := [],
            log := st.log ++ [.closeClient] }

/-- Shared pause-branch of the four resume/step tools: run all accumulated
listeners, then build the payload from the winning event and the (now
updated) current pause id, draining the console buffer. -/
def execPausedBranch (st1 : DebugState) (opts : ExecOptions) (ev : PausedEvent)
    (env : PropsEnv) (errPre : String) : DebugState × ToolResponse :=
  let st2 := firePaused ev st1
  match ev.callFrames.head? with
  | none =>
    -- `ev.callFrames[0].url` throws; the tool's try/catch reports it.
    (st2, .errText (errPre ++ tyErrUndefined))
  | some topFrame =>
    let fileUrl :=
      jsOrS topFrame.url
        (jsOrS ((objGet st2.scriptIdToUrl topFrame.location.scriptId).getD "") "<unknown>")
    let line := topFrame.location.lineNumber + 1
    let output := st2.consoleMessages
    let st3 := { st2 with consoleMessages := [] }
    let st4 :=
      if opts.includeScopes then { st3 with log := st3.log ++ scopeSends topFrame } else st3
    (st4, .okExec
      { status := "Paused at " ++ fileUrl ++ ":" ++ toString line ++
                  " (reason: " ++ ev.reason ++ ")"
        pauseId := st2.currentPauseId
        frame := summarizeFrame st2.scriptIdToUrl topFrame
        consoleOutput := if opts.includeConsole then some output else none
        stack := if opts.includeStack then some (ev.callFrames.map (summarizeFrame st2.scriptIdToUrl)) else none
        scopes := if opts.includeScopes then some (buildScopesExec env topFrame) else none })

/-- The `resume_execution` tool: register a fresh mint listener, issue
`Debugger.resume`, then settle the pause/exit race. -/
def resumeExecution (st : DebugState) (opts : ExecOptions) (outcome : RaceOutcome)
    (env : PropsEnv) : DebugState × ToolResponse :=
  if !st.clientActive then (st, .errText noSessionMsg)
  else
    let st1 := { st with pausedListeners := st.pausedListeners ++ [.mintL],
                         log := st.log ++ [.send .resumeCmd] }
    match outcome with
    | .cmdFail m => (st1, .errText ("Error: Resume failed - " ++ m))
    | .exited code =>
      (teardownOnExitResume st1,
       .okStatus ("Execution resumed until completion. Process exited with code " ++
                  exitCodeText code ++ "."))
    | .pausedEv ev => execPausedBranch st1 opts ev env "Error: Resume failed - "

/-- Common shape of `step_over`/`step_into`/`step_out`: identical to
`resume_execution` except for the CDP command, the error prefix, the
partial teardown on exit and the plain-text completion response. -/
def stepTool (cmd : CdpCmd) (errPre : String) (st : DebugState) (opts : ExecOptions)
    (outcome : RaceOutcome) (env : PropsEnv) : DebugState × ToolResponse :=
  if !st.clientActive then (st, .errText noSessionMsg)
  else
    let st1 := { st with pausedListeners := st.pausedListeners ++ [.mintL],
                         log := st.log ++ [.send cmd] }
    match outcome with
    | .cmdFail m => (st1, .errText (errPre ++ m))
    | .exited code =>
      (teardownOnExitStep st1,
       .okText ("Execution resumed until completion. Process exited with code " ++
                exitCodeText code ++ "."))
    | .pausedEv ev => execPausedBranch st1 opts ev env errPre

/-- The `step_over` tool. -/
def stepOver (st : DebugState) (opts : ExecOptions) (outcome : RaceOutcome)
    (env : PropsEnv) : DebugState × ToolResponse :=
  stepTool .stepOverCmd "Error: Step over failed - " st opts outcome env

/-- The `step_into` tool. -/
def stepInto (st : DebugState) (opts : ExecOptions) (outcome : RaceOutcome)
    (env : PropsEnv) : DebugState × ToolResponse :=
  stepTool .stepIntoCmd "Error: Step into failed - " st opts outcome env

/-- The `step_out` tool. -/
def stepOut (st : DebugState) (opts : ExecOptions) (outcome : RaceOutcome)
    (env : PropsEnv) : DebugState × ToolResponse :=
  stepTool .stepOutCmd "Error: Step out failed - " st opts outcome env

/-- Parameters of `continue_to_location`. -/
structure CtlParams where
  filePath : String
  line : Int
  column : Option Int := none
deriving DecidableEq

/-- The `continue_to_location` tool: resolves the script id from the
catalog, converts both line and column to 0-based, races pause against
exit — but performs *no* teardown when the process exits. -/
def continueToLocation (st : DebugState) (p : CtlParams) (outcome : RaceOutcome) :
    DebugState × ToolResponse :=
  if !st.clientActive then (st, .errText noSessionMsg)
  else
    let url := toFileUrl p.filePath
    match optTruthy ((st.scriptIdToUrl.find? (fun e => e.2 = url)).map (·.1)) with
    | none => (st, .errText ("Error: Script not found for " ++ url))
    | some scriptId =>
      let lineNumber := p.line - 1
      let columnNumber := p.column.getD 1 - 1
      let st1 := { st with pausedListeners := st.pausedListeners ++ [.mintL],
                           log := st.log ++ [.send (.continueToLoc scriptId lineNumber columnNumber)] }
      match outcome with
      | .cmdFail m => (st1, .errText ("Error: Failed to continue to location - " ++ m))
      | .exited _ => (st1, .okStatus "Execution completed.")
      | .pausedEv ev =>
        let st2 := firePaused ev st1
        match ev.callFrames.head? with
        | none => (st2, .errText ("Error: Failed to continue to location - " ++ tyErrUndefined))
        | some top =>
          let fs := summarizeFrame st2.scriptIdToUrl top
          (st2, .okExec { status := "Paused at " ++ fs.url ++ ":" ++ toString fs.line
                          pauseId := st2.currentPauseId
                          frame := fs })

/-- Parameters of `restart_frame`. -/
structure RestartParams where
  frameIndex : Nat
  pauseId : Option String := none
deriving DecidableEq

/-- The `restart_frame` tool: validates pause id and frame index, registers
a mint listener, issues `Debugger.restartFrame`, then awaits the next pause
(there is no exit race here). -/
def restartFrame (st : DebugState) (p : RestartParams)
    (outcome : Except String PausedEvent) : DebugState × ToolResponse :=
  if !st.clientActive || st.lastPausedParams.isNone then (st, .errText noPauseMsg)
  else
    match resolvePause st p.pauseId with
    | none => (st, .errText invalidPauseMsg)
    | some pause =>
      match pause.callFrames.get? p.frameIndex with
      | none => (st, .errText invalidFrameMsg)
      | some frame =>
        let st1 := { st with pausedListeners := st.pausedListeners ++ [.mintL],
                             log := st.log ++ [.send (.restartFrameCmd frame.callFrameId)] }
        match outcome with
        | .error m => (st1, .errText ("Error: Failed to restart frame - " ++ m))
        | .ok ev =>
          let st2 := firePaused ev st1
          match ev.callFrames.head? with
          | none => (st2, .errText ("Error: Failed to restart frame - " ++ tyErrUndefined))
          | some top =>
            let fs := summarizeFrame st2.scriptIdToUrl top
            (st2, .okExec { status := "Restarted frame; now at " ++ fs.url ++ ":" ++ toString fs.line
                            pauseId := st2.currentPauseId
                            frame := fs })

/-- Parameters of `evaluate_expression`. -/
structure EvalParams where
  expr : String
  pauseId : Option String := none
  frameIndex : Option Nat := none
  returnByValue : Option Bool := none
deriving DecidableEq

/-- CDP exception-details envelope. -/
structure ExcDetails where
  text : String
  exception : Option RemoteObject := none
deriving DecidableEq

/-- Reply of `Debugger.evaluateOnCallFrame`. -/
structure EvalReply where
  result : RemoteObject
  exceptionDetails : Option ExcDetails := none
deriving DecidableEq

/-- The `evaluate_expression` tool. -/
def evaluateExpression (st : DebugState) (p : EvalParams)
    (reply : Except String EvalReply) : DebugState × ToolResponse :=
  if !st.clientActive || st.lastPausedParams.isNone then (st, .errText noPauseMsg)
  else
    match resolvePause st p.pauseId with
    | none => (st, .errText invalidPauseMsg)
    | some pause =>
      match optTruthy ((pause.callFrames.get? (p.frameIndex.getD 0)).map (·.callFrameId)) with
      | none => (st, .errText invalidFrameMsg)
      | some cfid =>
        let st1 := { st with
          log := st.log ++ [.send (.evaluateOnCallFrame cfid p.expr (p.returnByValue.getD true))] }
        match reply with
        | .error m => (st1, .errText ("Error: Evaluation failed - " ++ m))
        | .ok r =>
          match r.exceptionDetails with
          | some exc =>
            (st1, .errText ("Error: " ++
              jsOrS ((exc.exception.bind (·.description)).getD "") exc.text))
          | none =>
            let output : ValSlot :=
              match r.result.value with
              | some v => .fromValue v
              | none => .fromDescription (jsOrS (r.result.description.getD "") r.result.type)
            ({ st1 with consoleMessages := [] }, .okEval output st1.consoleMessages)

/-- Parameters of `inspect_scopes`. -/
structure InspectParams where
  maxProps : Option Nat := none
  pauseId : Option String := none
  frameIndex : Option Nat := none
  includeThisPreview : Option Bool := none
deriving DecidableEq

/-- Scope snapshot built by `inspect_scopes`: per scope up to `maxProps`
own properties; the global scope is cut to 5 entries and flagged
`truncated`. -/
def buildScopesInspect (env : PropsEnv) (maxProps : Nat) (frame : CallFrame) :
    List InspectScopeOut :=
  frame.scopeChain.filterMap fun s =>
    match optTruthy s.objectId with
    | none => none
    | some oid =>
      let props := listPropsInspect env maxProps oid
      if s.type = "global" then
        some { type := s.type, vars := props.take 5, truncated := true }
      else
        some { type := s.type, vars := props, truncated := false }

/-- The `inspect_scopes` tool: per scope up to `maxProps` (default 15) own
properties; the global scope is cut to 5 entries and flagged `truncated`.
This handler has no try/catch, so an out-of-range frame index escapes as a
thrown TypeError. -/
def inspectScopes (st : DebugState) (p : InspectParams) (env : PropsEnv) :
    DebugState × ToolResponse :=
  if !st.clientActive || st.lastPausedParams.isNone then (st, .errText noPauseMsg)
  else
    let maxProps := p.maxProps.getD 15
    match resolvePause st p.pauseId with
    | none => (st, .errText invalidPauseMsg)
    | some pause =>
      match pause.callFrames.get? (p.frameIndex.getD 0) with
      | none => (st, .thrownError tyErrUndefined)
      | some frame =>
        let fileUrl :=
          jsOrS frame.url
            (jsOrS ((objGet st.scriptIdToUrl frame.location.scriptId).getD "") "<unknown>")
        let scopes : List InspectScopeOut := buildScopesInspect env maxProps frame
        let includeThis := p.includeThisPreview != some false
        let thisSummary : Option ThisOut :=
          if includeThis then
            match frame.thisObj with
            | some t =>
              if t.type ≠ "" then
                some { val := summarizeValue (some t)
                       preview := (optTruthy t.objectId).map (listPropsInspect env maxProps) }
              else none
            | none => none
          else none
        let thisSend : List ExtAction :=
          match thisSummary with
          | some ts =>
            match ts.preview, optTruthy ((frame.thisObj.bind (·.objectId))) with
            | some _, some oid => [.send (.getProperties oid true)]
            | _, _ => []
          | none => []
        let st1 := { st with log := st.log ++ scopeSends frame ++ thisSend }
        (st1, .okInspect
          { frame := { functionName := optTruthy (some frame.functionName)
                       url := fileUrl
                       line := frame.location.lineNumber + 1
                       column := frame.location.columnNumber.getD 0 + 1 }
            thisSummary := thisSummary
            scopes := scopes })

/-- Parameters of `list_call_stack`. -/
structure StackParams where
  depth : Option Nat := none
  pauseId : Option String := none
  includeThis : Option Bool := none
deriving DecidableEq

/-- The `list_call_stack` tool. -/
def listCallStack (st : DebugState) (p : StackParams) : DebugState × ToolResponse :=
  if !st.clientActive || st.lastPausedParams.isNone then (st, .errText noPauseMsg)
  else
    match resolvePause st p.pauseId with
    | none => (st, .errText invalidPauseMsg)
    | some pause =>
      let frames := (pause.callFrames.take (p.depth.getD 10)).map fun f =>
        { frame := summarizeFrame st.scriptIdToUrl f
          thisType := if p.includeThis.getD false then f.thisObj.map (·.type) else none
          : StackFrameOut }
      (st, .okStack frames
        (match optTruthy p.pauseId with
         | some s => some s
         | none => st.currentPauseId))

/-- The `get_pause_info` tool: guards only on `lastPausedParams`; a truthy
pause id missing from the catalog leaves `pause` undefined, so the body
throws and the catch reports a generic failure (not the invalid-pause
error). -/
def getPauseInfo (st : DebugState) (pauseId? : Option String) : DebugState × ToolResponse :=
  if st.lastPausedParams.isNone then (st, .errText noPauseMsg)
  else
    match resolvePause st pauseId? with
    | none => (st, .errText ("Error: Failed to get pause info - " ++ tyErrUndefined))
    | some pause =>
      match pause.callFrames.head? with
      | none => (st, .errText ("Error: Failed to get pause info - " ++ tyErrUndefined))
      | some top =>
        let fileUrl :=
          jsOrS top.url
            (jsOrS ((objGet st.scriptIdToUrl top.location.scriptId).getD "") "<unknown>")
        (st, .okPauseInfo
          { reason := pause.reason
            pauseId :=
              (match optTruthy pauseId? with
               | some s => some s
               | none => st.currentPauseId)
            location := { url := fileUrl
                          line := top.location.lineNumber + 1
                          column := top.location.columnNumber.getD 0 + 1 }
            functionName := optTruthy (some top.functionName)
            scopeTypes := top.scopeChain.map (·.type) })

/-- The `stop_debug_session` tool: kill the child if present, close the
client if present, clear every catalog and reset the pause counter. -/
def stopDebugSession (st : DebugState) : DebugState × ToolResponse :=
  let st1 :=
    if st.processActive then
      { st with processActive := false, log := st.log ++ [.killChild] }
    else st
  let st2 :=
    if st1.clientActive then
      { st1 with clientActive := false, log := st1.log ++ [.closeClient] }
    else st1
  ({ st2 with scriptIdToUrl := [], consoleMessages := [], lastPausedParams := none,
              pauseMap := [], currentPauseId := none, pauseCounter := 0 },
   .okText "Debug session terminated.")

/-- Intake listener for `Debugger.scriptParsed`: record the url if truthy. -/
def onScriptParsed (st : DebugState) (scriptId url : String) : DebugState :=
  if st.clientActive then
    if url ≠ "" then { st with scriptIdToUrl := objSet st.scriptIdToUrl scriptId url } else st
  else st

/-- Rendering of one console argument: `arg.value !== undefined ? arg.value
: arg.description`, string-coerced by the template join. -/
def renderConsoleArg (a : RemoteObject) : String :=
  match a.value with
  | some p => p.toJs
  | none =>
    match a.description with
    | some d => d
    | none => "undefined"

/-- Intake listener for `Runtime.consoleAPICalled`: `[level] ` plus the
space-joined arguments, appended to the console buffer. -/
def onConsoleApiCalled (st : DebugState) (level : String) (args : List RemoteObject) : DebugState :=
  if st.clientActive then
    { st with consoleMessages :=
        st.consoleMessages ++
          ["[" ++ level ++ "] " ++ String.intercalate " " (args.map renderConsoleArg)] }
  else st

/-- A `Debugger.paused` event delivered outside any pending tool call
(possible when a waiter was abandoned): all registered listeners run. -/
def onPausedEvent (st : DebugState) (ev : PausedEvent) : DebugState :=
  if st.clientActive then firePaused ev st else st

/-- Decidable equality for `Except` values carried inside events. -/
instance {ε α : Type} [DecidableEq ε] [DecidableEq α] : DecidableEq (Except ε α) := fun x y =>
  match x, y with
  | .ok a, .ok b =>
    if h : a = b then .isTrue (by rw [h]) else .isFalse (by intro he; cases he; exact h rfl)
  | .error a, .error b =>
    if h : a = b then .isTrue (by rw [h]) else .isFalse (by intro he; cases he; exact h rfl)
  | .ok _, .error _ => .isFalse (by intro he; cases he)
  | .error _, .ok _ => .isFalse (by intro he; cases he)

/-- One server-lifetime event: a tool invocation (with the environment's
choices for target replies and race outcomes) or an intake event delivered
by the CDP client. -/
inductive SessionOp where
  | opStart (scriptPath : String) (outcome : StartOutcome)
  | opSetBreakpoint (filePath : String) (line : Int) (reply : Except String String)
  | opSetBreakpointCondition (p : SbcParams) (reply : Except String BpReply)
  | opAddLogpoint (p : LogpointParams) (reply : Except String BpReply)
  | opSetExceptionBreakpoints (state : String) (reply : Except String Unit)
  | opBlackboxScripts (patterns : List String) (reply : Except String Unit)
  | opListScripts
  | opGetScriptSource (scriptId? url? : Option String) (reply : Except String String)
  | opReadConsole
  | opGetObjectProperties (objectId : String) (maxProps : Option Nat) (env : PropsEnv)
  | opResume (opts : ExecOptions) (outcome : RaceOutcome) (env : PropsEnv)
  | opStepOver (opts : ExecOptions) (outcome : RaceOutcome) (env : PropsEnv)
  | opStepInto (opts : ExecOptions) (outcome : RaceOutcome) (env : PropsEnv)
  | opStepOut (opts : ExecOptions) (outcome : RaceOutcome) (env : PropsEnv)
  | opContinueToLocation (p : CtlParams) (outcome : RaceOutcome)
  | opRestartFrame (p : RestartParams) (outcome : Except String PausedEvent)
  | opEvaluate (p : EvalParams) (reply : Except String EvalReply)
  | opInspectScopes (p : InspectParams) (env : PropsEnv)
  | opListCallStack (p : StackParams)
  | opGetPauseInfo (pauseId? : Option String)
  | opStop
  | opScriptParsed (scriptId url : String)
  | opConsoleEvent (level : String) (args : List RemoteObject)
  | opPausedEvent (ev : PausedEvent)
deriving DecidableEq

/-- State transition of one event (the response is dropped). -/
def stepOp (st : DebugState) (op : SessionOp) : DebugState :=
  match op with
  | .opStart sp outcome => (startNodeDebug st sp outcome).1
  | .opSetBreakpoint fp line reply => (setBreakpoint st fp line reply).1
  | .opSetBreakpointCondition p reply => (setBreakpointCondition st p reply).1
  | .opAddLogpoint p reply => (addLogpoint st p reply).1
  | .opSetExceptionBreakpoints s reply => (setExceptionBreakpoints st s reply).1
  | .opBlackboxScripts ps reply => (blackboxScripts st ps reply).1
  | .opListScripts => (listScripts st).1
  | .opGetScriptSource sid url reply => (getScriptSource st sid url reply).1
  | .opReadConsole => (readConsole st).1
  | .opGetObjectProperties oid mp env => (getObjectProperties st oid mp env).1
  | .opResume opts outcome env => (resumeExecution st opts outcome env).1
  | .opStepOver opts outcome env => (stepOver st opts outcome env).1
  | .opStepInto opts outcome env => (stepInto st opts outcome env).1
  | .opStepOut opts outcome env => (stepOut st opts outcome env).1
  | .opContinueToLocation p outcome => (continueToLocation st p outcome).1
  | .opRestartFrame p outcome => (restartFrame st p outcome).1
  | .opEvaluate p reply => (evaluateExpression st p reply).1
  | .opInspectScopes p env => (inspectScopes st p env).1
  | .opListCallStack p => (listCallStack st p).1
  | .opGetPauseInfo pid => (getPauseInfo st pid).1
  | .opStop => (stopDebugSession st).1
  | .opScriptParsed sid url => onScriptParsed st sid url
  | .opConsoleEvent lvl args => onConsoleApiCalled st lvl args
  | .opPausedEvent ev => onPausedEvent st ev

/-- Run a sequence of events from a state. -/
def runOps (st : DebugState) (ops : List SessionOp) : DebugState :=
  ops.foldl stepOp st

/-- Decimal digit list of a natural number, the recursion that
`Nat.toDigitsCore` unfolds to once its fuel is sufficient. -/
def digitsRec (n : Nat) : List Char :=
  if h : n / 10 = 0 then [Nat.digitChar (n % 10)]
  else digitsRec (n / 10) ++ [Nat.digitChar (n % 10)]
termination_by n
decreasing_by
  exact Nat.div_lt_self (by omega) (by omega)

/-- Structured logpoint message: literal runs interleaved with
interpolation holes (`\x7b expr \x7d` segments). -/
inductive MsgPart where
  | lit (s : String)
  | hole (e : String)
deriving DecidableEq

/-- Character list of one message part as the user writes it. -/
def MsgPart.render : MsgPart → List Char
  | .lit s => s.data
  | .hole e => lbrace :: e.data ++ [rbrace]

/-- Character list of a whole part list as the user writes it. -/
def renderList : List MsgPart → List Char
  | [] => []
  | p :: rest => p.render ++ renderList rest

/-- The raw message string a part list denotes. -/
def renderMsg (ps : List MsgPart) : String :=
  String.mk (renderList ps)

/-- Character list of one part inside the generated template literal:
literals get their backticks escaped, holes become `$\x7b expr \x7d` (with
backticks inside the expression escaped too, since the source escapes
before interpolating). -/
def MsgPart.expand : MsgPart → List Char
  | .lit s => escBtL s.data
  | .hole e => dollar :: lbrace :: escBtL e.data ++ [rbrace]

/-- The expanded template body for a part list. -/
def expandMsg : List MsgPart → List Char
  | [] => []
  | p :: rest => p.expand ++ expandMsg rest

/-- A character list free of both brace characters. -/
def braceFreeB (cs : List Char) : Bool :=
  cs.all (fun c => c ≠ lbrace && c ≠ rbrace)

/-- Well-formed message part: literals are brace-free, holes are non-empty
and brace-free (matching the `[^\x7d]+` capture of the source regex). -/
def MsgPart.wfB : MsgPart → Bool
  | .lit s => braceFreeB s.data
  | .hole e => !e.data.isEmpty && braceFreeB e.data

/-- Well-formed message: every part is well-formed. -/
def wfMsgB (ps : List MsgPart) : Bool :=
  ps.all MsgPart.wfB

/-- Fixture: a source location at 0-based line 2, column 4. -/
def loc1 : Location := { scriptId := "s1", lineNumber := 2, columnNumber := some 4 }

/-- Fixture: a call frame of the sample script. -/
def frame1 : CallFrame :=
  { callFrameId := "f1", functionName := "add", url := "file:///tmp/sample.js",
    location := loc1, scopeChain := [{ type := "local", objectId := some "o1" }] }

/-- Fixture: a pause event holding `frame1`. -/
def ev1 : PausedEvent := { reason := "other", callFrames := [frame1] }

/-- Fixture: a call frame whose only scope is the global scope with a
resolvable object handle. -/
def frameG : CallFrame :=
  { callFrameId := "fg", url := "file:///tmp/sample.js", location := loc1,
    scopeChain := [{ type := "global", objectId := some "g1" }] }

/-- Fixture: a pause event holding `frameG`. -/
def evG : PausedEvent := { reason := "other", callFrames := [frameG] }

/-- Fixture: seven distinct own properties for the global object. -/
def props7 : List PropDesc :=
  [{ name := "a1" }, { name := "a2" }, { name := "a3" }, { name := "a4" },
   { name := "a5" }, { name := "a6" }, { name := "a7" }]

/-- Fixture: reply table resolving the global object to `props7`. -/
def env7 : PropsEnv := [("g1", props7)]

/-- Fixture: the state of a freshly started session on the sample script. -/
def startedState : DebugState :=
  (startNodeDebug initState "/tmp/sample.js"
    (.attached [("s1", "file:///tmp/sample.js")] ev1)).1

/-- Fixture: the state right after `stop_debug_session` tears down the
freshly started session. -/
def stoppedState : DebugState := (stopDebugSession startedState).1

/-- Fixture: the state after a start and two pause-winning execution-control
calls (so three mint listeners never fire on the same event yet). -/
def twoExecState : DebugState :=
  runOps initState
    [.opStart "/tmp/sample.js" (.attached [("s1", "file:///tmp/sample.js")] ev1),
     .opResume {} (.pausedEv ev1) [],
     .opStepOver {} (.pausedEv ev1) []]

/-- The `scopes` field of an execution-control pause response, when any. -/
def scopesOf : ToolResponse → Option (List ScopeOut)
  | .okExec p => p.scopes
  | _ => none

/-- Completion status text used by the resume/step tools on target exit. -/
def exitStatusText (code : Option Int) : String :=
  "Execution resumed until completion. Process exited with code " ++ exitCodeText code ++ "."

/-- The cause wrapped into the start-failed error for each failing attach
outcome. -/
def startFailCause : StartOutcome → String
  | .exitedBeforeAttach => "Node process exited before debugger attached"
  | .cdpConnectFail m => m
  | .debuggerEnableFail m => m
  | .runtimeEnableFail m => m
  | .attached _ _ => ""

/-- What `resume_execution` does when the exit-waiter wins: completion
response, full teardown (including pause catalog and current pause id),
counter kept, close logged. -/
def ResumeExitSpec (st : DebugState) (opts : ExecOptions) (code : Option Int)
    (env : PropsEnv) : Prop :=
  (resumeExecution st opts (.exited code) env).2 = .okStatus (exitStatusText code) ∧
  (resumeExecution st opts (.exited code) env).1.clientActive = false ∧
  (resumeExecution st opts (.exited code) env).1.processActive = false ∧
  (resumeExecution st opts (.exited code) env).1.scriptIdToUrl = [] ∧
  (resumeExecution st opts (.exited code) env).1.consoleMessages = [] ∧
  (resumeExecution st opts (.exited code) env).1.lastPausedParams = none ∧
  (resumeExecution st opts (.exited code) env).1.pauseMap = [] ∧
  (resumeExecution st opts (.exited code) env).1.currentPauseId = none ∧
  (resumeExecution st opts (.exited code) env).1.log = st.log ++ [.send .resumeCmd, .closeClient]

/-- What a step tool does when the exit-waiter wins: completion response,
teardown of process/client/script/console/last-pause, close logged — but
the pause catalog and the current pause id are left as they were. -/
def StepExitSpec (tool : DebugState → ExecOptions → RaceOutcome → PropsEnv → DebugState × ToolResponse)
    (cmd : CdpCmd) (st : DebugState) (opts : ExecOptions) (code : Option Int)
    (env : PropsEnv) : Prop :=
  (tool st opts (.exited code) env).2 = .okText (exitStatusText code) ∧
  (tool st opts (.exited code) env).1.clientActive = false ∧
  (tool st opts (.exited code) env).1.processActive = false ∧
  (tool st opts (.exited code) env).1.scriptIdToUrl = [] ∧
  (tool st opts (.exited code) env).1.consoleMessages = [] ∧
  (tool st opts (.exited code) env).1.lastPausedParams = none ∧
  (tool st opts (.exited code) env).1.pauseMap = st.pauseMap ∧
  (tool st opts (.exited code) env).1.currentPauseId = st.currentPauseId ∧
  (tool st opts (.exited code) env).1.log = st.log ++ [.send cmd, .closeClient]

/-- What a failing `start_node_debug` actually does: wrap the cause in the
start-failed error and leave everything standing — process handle set, no
kill, no close, catalogs untouched. -/
def StartFailSpec (st : DebugState) (path : String) (o : StartOutcome) : Prop :=
  (startNodeDebug st path o).2 =
    .errText ("Error: Failed to start debug session - " ++ startFailCause o) ∧
  (startNodeDebug st path o).1.processActive = true ∧
  ExtAction.killChild ∉ ((startNodeDebug st path o).1.log.drop st.log.length) ∧
  ExtAction.closeClient ∉ ((startNodeDebug st path o).1.log.drop st.log.length) ∧
  (startNodeDebug st path o).1.pauseMap = st.pauseMap ∧
  (startNodeDebug st path o).1.scriptIdToUrl = st.scriptIdToUrl ∧
  (startNodeDebug st path o).1.consoleMessages = st.consoleMessages

/-- Catalog invariant: the keys of the pause catalog are, in insertion
order, the pause ids minted from a strictly increasing list of counter
values, all bounded by the current counter. -/
def GoodMap (st : DebugState) : Prop :=
  ∃ ns : List Nat, st.pauseMap.map Prod.fst = ns.map mkPid ∧
    ns.Pairwise (· < ·) ∧ ∀ i ∈ ns, i ≤ st.pauseCounter

/-- Decimal digit characters determine the digit (below base 10). -/
theorem digitChar_inj : ∀ a, a < 10 → ∀ b, b < 10 →
    Nat.digitChar a = Nat.digitChar b → a = b := by decide

/-- With sufficient fuel, `Nat.toDigitsCore` computes `digitsRec`. -/
theorem toDigitsCore_eq_digitsRec :
    ∀ (f n : Nat) (ds : List Char), n < f →
      Nat.toDigitsCore 10 f n ds = digitsRec n ++ ds := by
  intro f
  induction f with
  | zero => intro n ds h; omega
  | succ f ih =>
    intro n ds h
    rw [digitsRec]
    by_cases h0 : n / 10 = 0
    · simp [Nat.toDigitsCore, h0]
    · have hn : n ≠ 0 := by
        intro hz; rw [hz] at h0; simp at h0
      have h2 : n / 10 < n := Nat.div_lt_self (by omega) (by omega)
      have h1 : n / 10 < f := by omega
      simp only [Nat.toDigitsCore, h0, if_false]
      rw [ih (n / 10) _ h1]
      simp [h0]

/-- Digit lists are never empty. -/
theorem digitsRec_ne_nil (n : Nat) : digitsRec n ≠ [] := by
  rw [digitsRec]
  by_cases h : n / 10 = 0 <;> simp [h]

/-- Unfolding of `digitsRec` on a single-digit number. -/
theorem digitsRec_eq_single {n : Nat} (h : n / 10 = 0) :
    digitsRec n = [Nat.digitChar (n % 10)] := by
  rw [digitsRec, dif_pos h]

/-- Unfolding of `digitsRec` on a multi-digit number. -/
theorem digitsRec_eq_append {n : Nat} (h : ¬ n / 10 = 0) :
    digitsRec n = digitsRec (n / 10) ++ [Nat.digitChar (n % 10)] := by
  conv_lhs => rw [digitsRec]
  rw [dif_neg h]

/-- The digit list determines the number. -/
theorem digitsRec_inj : ∀ a b : Nat, digitsRec a = digitsRec b → a = b := by
  intro a
  induction a using Nat.strong_induction_on with
  | _ a ih =>
    intro b h
    by_cases ha : a / 10 = 0 <;> by_cases hb : b / 10 = 0
    · rw [digitsRec_eq_single ha, digitsRec_eq_single hb] at h
      have hc : Nat.digitChar (a % 10) = Nat.digitChar (b % 10) := by simpa using h
      have hmod := digitChar_inj _ (Nat.mod_lt _ (by omega)) _ (Nat.mod_lt _ (by omega)) hc
      have hda := Nat.div_add_mod a 10
      have hdb := Nat.div_add_mod b 10
      omega
    · exfalso
      rw [digitsRec_eq_single ha, digitsRec_eq_append hb] at h
      have hlen := congrArg List.length h
      simp only [List.length_cons, List.length_append, List.length_nil] at hlen
      have hp : 0 < (digitsRec (b / 10)).length :=
        List.length_pos.mpr (digitsRec_ne_nil _)
      omega
    · exfalso
      rw [digitsRec_eq_append ha, digitsRec_eq_single hb] at h
      have hlen := congrArg List.length h
      simp only [List.length_cons, List.length_append, List.length_nil] at hlen
      have hp : 0 < (digitsRec (a / 10)).length :=
        List.length_pos.mpr (digitsRec_ne_nil _)
      omega
    · rw [digitsRec_eq_append ha, digitsRec_eq_append hb] at h
      have hsplit := List.append_inj' h (by simp)
      obtain ⟨hpre, hlast⟩ := hsplit
      have hn : a ≠ 0 := by intro hz; rw [hz] at ha; simp at ha
      have hdiv : a / 10 = b / 10 :=
        ih (a / 10) (Nat.div_lt_self (by omega) (by omega)) _ hpre
      have hc : Nat.digitChar (a % 10) = Nat.digitChar (b % 10) := by
        simpa using hlast
      have hmod := digitChar_inj _ (Nat.mod_lt _ (by omega)) _ (Nat.mod_lt _ (by omega)) hc
      have hda := Nat.div_add_mod a 10
      have hdb := Nat.div_add_mod b 10
      omega

/-- `List.asString` is injective. -/
theorem asString_inj {l1 l2 : List Char} (h : l1.asString = l2.asString) : l1 = l2 := by
  simpa [List.asString] using congrArg String.data h

/-- Decimal rendering of naturals is injective. -/
theorem natRepr_inj {a b : Nat} (h : Nat.repr a = Nat.repr b) : a = b := by
  have ha : Nat.repr a = (digitsRec a).asString := by
    rw [Nat.repr, Nat.toDigits, toDigitsCore_eq_digitsRec (a + 1) a [] (by omega)]
    simp
  have hb : Nat.repr b = (digitsRec b).asString := by
    rw [Nat.repr, Nat.toDigits, toDigitsCore_eq_digitsRec (b + 1) b [] (by omega)]
    simp
  rw [ha, hb] at h
  exact digitsRec_inj _ _ (asString_inj h)

/-- Minted pause ids are injective in the counter value. -/
theorem mkPid_inj {a b : Nat} (h : mkPid a = mkPid b) : a = b := by
  have hd := congrArg String.data h
  simp only [mkPid, String.data_append] at hd
  have hx : (toString a).data = (toString b).data := by
    simpa using hd
  have hs : (toString a : String) = toString b := by
    cases hta : toString a with
    | _ d1 =>
      cases htb : toString b with
      | _ d2 =>
        rw [hta, htb] at hx
        simp at hx
        exact congrArg String.mk (by simpa using hx)
  exact natRepr_inj hs

/-- Assigning a fresh key appends to the record. -/
theorem objSet_of_not_mem {α : Type} {m : List (String × α)} {k : String} (v : α)
    (h : k ∉ m.map Prod.fst) : objSet m k v = m ++ [(k, v)] := by
  induction m with
  | nil => rfl
  | cons e rest ih =>
    simp only [List.map_cons, List.mem_cons] at h
    push_neg at h
    simp only [objSet]
    rw [if_neg (fun he => h.1 he.symm)]
    simp [ih h.2]

/-- `GoodMap` only looks at the catalog and the counter; it survives any
update leaving the catalog intact and not decreasing the counter. -/
theorem goodMap_ext {st st' : DebugState} (hm : st'.pauseMap = st.pauseMap)
    (hc : st.pauseCounter ≤ st'.pauseCounter) (h : GoodMap st) : GoodMap st' := by
  obtain ⟨ns, h1, h2, h3⟩ := h
  exact ⟨ns, by rw [hm, h1], h2, fun i hi => le_trans (h3 i hi) hc⟩

/-- An empty catalog satisfies the invariant. -/
theorem goodMap_empty {st : DebugState} (hm : st.pauseMap = []) : GoodMap st :=
  ⟨[], by simp [hm], by simp, by simp⟩

/-- Any state whose catalog is obtained from a good one by minting the next
counter value satisfies the invariant. -/
theorem goodMap_mint_fields {st st' : DebugState} (ev : PausedEvent) (h : GoodMap st)
    (hm : st'.pauseMap = objSet st.pauseMap (mkPid (st.pauseCounter + 1)) ev)
    (hc : st'.pauseCounter = st.pauseCounter + 1) : GoodMap st' := by
  obtain ⟨ns, h1, h2, h3⟩ := h
  have hfresh : mkPid (st.pauseCounter + 1) ∉ st.pauseMap.map Prod.fst := by
    rw [h1]
    intro hmem
    obtain ⟨i, hi, hieq⟩ := List.mem_map.mp hmem
    have := mkPid_inj hieq
    have := h3 i hi
    omega
  refine ⟨ns ++ [st.pauseCounter + 1], ?_, ?_, ?_⟩
  · rw [hm, objSet_of_not_mem _ hfresh]
    simp [h1]
  · rw [List.pairwise_append]
    refine ⟨h2, by simp, ?_⟩
    intro x hx y hy
    simp at hy
    have := h3 x hx
    omega
  · intro i hi
    rw [hc]
    rcases List.mem_append.mp hi with hi | hi
    · have := h3 i hi; omega
    · simp at hi; omega

/-- Minting preserves the invariant. -/
theorem goodMap_mint {st : DebugState} (ev : PausedEvent) (h : GoodMap st) :
    GoodMap (mintPause ev st) :=
  goodMap_mint_fields ev h rfl rfl

/-- Running one listener preserves the invariant. -/
theorem goodMap_runListener (l : ListenerKind) (ev : PausedEvent) {st : DebugState}
    (h : GoodMap st) : GoodMap (runListener l ev st) := by
  cases l with
  | startL => exact goodMap_ext rfl (Nat.le_refl _) h
  | mintL => exact goodMap_mint ev h

/-- Folding listeners preserves the invariant. -/
theorem goodMap_foldListeners (ev : PausedEvent) :
    ∀ (ls : List ListenerKind) (st : DebugState), GoodMap st →
      GoodMap (ls.foldl (fun s l => runListener l ev s) st) := by
  intro ls
  induction ls with
  | nil => intro st h; exact h
  | cons l rest ih =>
    intro st h
    exact ih _ (goodMap_runListener l ev h)

/-- Delivering a pause event preserves the invariant. -/
theorem goodMap_firePaused (ev : PausedEvent) {st : DebugState} (h : GoodMap st) :
    GoodMap (firePaused ev st) :=
  goodMap_foldListeners ev st.pausedListeners st h

/-- Every event preserves the catalog invariant. -/
theorem goodMap_stepOp (op : SessionOp) (st : DebugState) (h : GoodMap st) :
    GoodMap (stepOp st op) := by
  cases op <;>
    simp only [stepOp, startNodeDebug, setBreakpoint, setBreakpointCondition, addLogpoint,
      setExceptionBreakpoints, blackboxScripts, listScripts, getScriptSource, readConsole,
      getObjectProperties, resumeExecution, stepOver, stepInto, stepOut, stepTool,
      continueToLocation, restartFrame, evaluateExpression, inspectScopes, listCallStack,
      getPauseInfo, stopDebugSession, onScriptParsed, onConsoleApiCalled, onPausedEvent,
      execPausedBranch, teardownOnExitResume, teardownOnExitStep] <;>
    (repeat' split) <;>
    first
      | exact goodMap_ext rfl (Nat.le_refl _) h
      | exact goodMap_empty rfl
      | exact goodMap_mint_fields _ (goodMap_ext rfl (Nat.le_refl _) h) rfl rfl
      | exact goodMap_firePaused _ (goodMap_ext rfl (Nat.le_refl _) h)

/-- Looking up the key just assigned yields the assigned value. -/
theorem objGet_objSet_self {α : Type} (m : List (String × α)) (k : String) (v : α) :
    objGet (objSet m k v) k = some v := by
  induction m with
  | nil => simp [objSet, objGet, List.find?]
  | cons e rest ih =>
    by_cases he : e.1 = k
    · simp [objSet, he, objGet, List.find?]
    · simp only [objSet]
      rw [if_neg he]
      simpa [objGet, List.find?, he] using ih

/-- Assigning a different key does not change a lookup. -/
theorem objGet_objSet_ne {α : Type} (m : List (String × α)) {k k' : String} (v : α)
    (h : k' ≠ k) : objGet (objSet m k' v) k = objGet m k := by
  induction m with
  | nil => simp [objSet, objGet, List.find?, h]
  | cons e rest ih =>
    simp only [objSet]
    by_cases he : e.1 = k'
    · rw [if_pos he]
      have h2 : ¬ (e.1 = k) := by rw [he]; exact h
      simp [objGet, List.find?, h, h2]
    · rw [if_neg he]
      by_cases hek : e.1 = k
      · simp [objGet, List.find?, hek]
      · simpa [objGet, List.find?, hek] using ih

/-- A successful lookup means the key is present. -/
theorem objGet_mem_keys {α : Type} {m : List (String × α)} {k : String} {v : α}
    (h : objGet m k = some v) : k ∈ m.map Prod.fst := by
  induction m with
  | nil => simp [objGet, List.find?] at h
  | cons e rest ih =>
    by_cases he : e.1 = k
    · simp [he]
    · simp only [objGet, List.find?] at h
      rw [show (decide (e.1 = k)) = false by simp [he]] at h
      simp only [List.map_cons, List.mem_cons]
      exact Or.inr (ih h)

/-- Effect of minting on a lookup: the fresh key maps to the event, other
present keys are unchanged. -/
theorem mintPause_objGet {st : DebugState} (ev : PausedEvent) (h : GoodMap st) :
    (∀ pid v, objGet st.pauseMap pid = some v →
      objGet (mintPause ev st).pauseMap pid = some v) ∧
    objGet (mintPause ev st).pauseMap (mkPid (st.pauseCounter + 1)) = some ev := by
  obtain ⟨ns, h1, h2, h3⟩ := h
  constructor
  · intro pid v hv
    have hmem := objGet_mem_keys hv
    have hne : mkPid (st.pauseCounter + 1) ≠ pid := by
      intro he
      rw [← he, h1] at hmem
      obtain ⟨i, hi, hieq⟩ := List.mem_map.mp hmem
      have := mkPid_inj hieq
      have := h3 i hi
      omega
    simpa [mintPause, objGet_objSet_ne _ _ hne] using hv
  · simp [mintPause, objGet_objSet_self]

/-- Characterization of folding `n` mint listeners over a good state:
the counter advances by `n`, the catalog gains the `n` freshly minted keys
in order (all mapping to the delivered event), existing entries survive,
and the current pause id ends at the last minted id. -/
theorem mintFold (ev : PausedEvent) :
    ∀ (n : Nat) (st : DebugState), GoodMap st →
      (((List.replicate n ListenerKind.mintL).foldl
          (fun s l => runListener l ev s) st).pauseCounter = st.pauseCounter + n) ∧
      (((List.replicate n ListenerKind.mintL).foldl
          (fun s l => runListener l ev s) st).pauseMap.map Prod.fst =
        st.pauseMap.map Prod.fst ++
          (List.range n).map (fun k => mkPid (st.pauseCounter + k + 1))) ∧
      (∀ pid v, objGet st.pauseMap pid = some v →
        objGet ((List.replicate n ListenerKind.mintL).foldl
          (fun s l => runListener l ev s) st).pauseMap pid = some v) ∧
      (∀ k, k < n →
        objGet ((List.replicate n ListenerKind.mintL).foldl
          (fun s l => runListener l ev s) st).pauseMap
            (mkPid (st.pauseCounter + k + 1)) = some ev) ∧
      (0 < n →
        ((List.replicate n ListenerKind.mintL).foldl
          (fun s l => runListener l ev s) st).currentPauseId =
          some (mkPid (st.pauseCounter + n))) := by
  intro n
  induction n with
  | zero =>
    intro st h
    refine ⟨by simp, by simp, fun pid v hv => by simpa using hv, by omega, by omega⟩
  | succ n ih =>
    intro st h
    have hmint := mintPause_objGet ev h
    have hgood : GoodMap (mintPause ev st) := goodMap_mint ev h
    obtain ⟨ihc, ihk, ihold, ihnew, ihcur⟩ := ih (mintPause ev st) hgood
    have hstep : (List.replicate (n + 1) ListenerKind.mintL).foldl
        (fun s l => runListener l ev s) st =
        (List.replicate n ListenerKind.mintL).foldl
          (fun s l => runListener l ev s) (mintPause ev st) := by
      rw [List.replicate_succ]
      rfl
    rw [hstep]
    have hcnt : (mintPause ev st).pauseCounter = st.pauseCounter + 1 := rfl
    refine ⟨by rw [ihc, hcnt]; omega, ?_, ?_, ?_, ?_⟩
    · rw [ihk]
      have hkeys : (mintPause ev st).pauseMap.map Prod.fst =
          st.pauseMap.map Prod.fst ++ [mkPid (st.pauseCounter + 1)] := by
        obtain ⟨ns, h1, h2, h3⟩ := h
        have hfresh : mkPid (st.pauseCounter + 1) ∉ st.pauseMap.map Prod.fst := by
          rw [h1]
          intro hmem
          obtain ⟨i, hi, hieq⟩ := List.mem_map.mp hmem
          have := mkPid_inj hieq
          have := h3 i hi
          omega
        simp [mintPause, objSet_of_not_mem _ hfresh]
      rw [hkeys, hcnt, List.append_assoc]
      congr 1
      rw [List.range_succ_eq_map]
      simp only [List.map_cons, List.map_map, List.singleton_append]
      have harg : st.pauseCounter + 0 + 1 = st.pauseCounter + 1 := by omega
      rw [harg]
      congr 1
      apply List.map_congr_left
      intro a ha
      simp only [Function.comp_apply]
      congr 1
      omega
    · intro pid v hv
      exact ihold pid v (hmint.1 pid v hv)
    · intro k hk
      rcases Nat.eq_zero_or_pos k with hk0 | hkpos
      · subst hk0
        exact ihold _ _ hmint.2
      · have hk' : k - 1 < n := by omega
        have := ihnew (k - 1) hk'
        rw [hcnt] at this
        have harg : st.pauseCounter + 1 + (k - 1) + 1 = st.pauseCounter + k + 1 := by omega
        rwa [harg] at this
    · intro hn
      rcases Nat.eq_zero_or_pos n with hn0 | hnpos
      · subst hn0
        simp only [List.replicate, List.foldl_nil]
        have : (mintPause ev st).currentPauseId = some (mkPid (st.pauseCounter + 1)) := rfl
        rw [this]
      · have := ihcur hnpos
        rw [hcnt] at this
        have harg : st.pauseCounter + 1 + n = st.pauseCounter + (n + 1) := by omega
        rwa [harg] at this

/-- Reachable states satisfy the catalog invariant. -/
theorem goodMap_runOps (ops : List SessionOp) : GoodMap (runOps initState ops) := by
  suffices h : ∀ st, GoodMap st → GoodMap (runOps st ops) by
    exact h initState (goodMap_empty rfl)
  induction ops with
  | nil => intro st h; exact h
  | cons op rest ih =>
    intro st h
    exact ih _ (goodMap_stepOp op st h)

/-- C1: along any event sequence from server startup, the pause-catalog
keys are, in minting order, ids of the form `'p' + counter` for a strictly
increasing sequence of counter values; hence every pause id minted during a
session is unique and strictly greater, as `'p' + counter`, than every
pause id minted earlier in that session. -/
theorem claim1_pause_ids_unique_monotone (ops : List SessionOp) :
    ∃ ns : List Nat,
      (runOps initState ops).pauseMap.map Prod.fst = ns.map mkPid ∧
      ns.Pairwise (· < ·) ∧
      ((runOps initState ops).pauseMap.map Prod.fst).Nodup := by
  obtain ⟨ns, h1, h2, h3⟩ := goodMap_runOps ops
  refine ⟨ns, h1, h2, ?_⟩
  rw [h1]
  apply List.Nodup.map
  · intro a b hab
    exact mkPid_inj hab
  · exact h2.imp (fun hlt => Nat.ne_of_lt hlt)

/-- C2 counterexample: a `step_over` whose race is won by target exit
returns the completion response but leaves the pause catalog and the
current pause id uncleared (the claim requires both cleared). -/
theorem claim2_counterexample :
    (stepOver startedState {} (.exited (some 0)) []).2 =
      .okText "Execution resumed until completion. Process exited with code 0." ∧
    ¬((stepOver startedState {} (.exited (some 0)) []).1.pauseMap = [] ∧
      (stepOver startedState {} (.exited (some 0)) []).1.currentPauseId = none) := by
  decide

/-- C2 (amended): when the exit-waiter wins, all four tools capture the
exit code, close the CDP client, clear process/client handles, script
catalog, console buffer and last-pause state, and return a completion
response; `resume_execution` additionally clears the pause catalog and the
current pause id, while `step_over`/`step_into`/`step_out` leave those two
fields untouched. -/
theorem claim2_exit_teardown (st : DebugState) (opts : ExecOptions) (code : Option Int)
    (env : PropsEnv) (h : st.clientActive = true) :
    ResumeExitSpec st opts code env ∧
    StepExitSpec stepOver .stepOverCmd st opts code env ∧
    StepExitSpec stepInto .stepIntoCmd st opts code env ∧
    StepExitSpec stepOut .stepOutCmd st opts code env := by
  refine ⟨?_, ?_, ?_, ?_⟩ <;>
    simp [ResumeExitSpec, StepExitSpec, resumeExecution, stepOver, stepInto, stepOut,
      stepTool, teardownOnExitResume, teardownOnExitStep, exitStatusText, h]

/-- C2 witness. -/
theorem claim2_exit_teardown_witness :
    startedState.clientActive = true ∧
    (ResumeExitSpec startedState {} (some 0) [] ∧
     StepExitSpec stepOver .stepOverCmd startedState {} (some 0) [] ∧
     StepExitSpec stepInto .stepIntoCmd startedState {} (some 0) [] ∧
     StepExitSpec stepOut .stepOutCmd startedState {} (some 0) []) :=
  ⟨by decide, claim2_exit_teardown startedState {} (some 0) [] (by decide)⟩

/-- C5 counterexample: when the launcher fails, the error is reported but
the partial session is not torn down — the process handle stays set and no
kill is ever issued (the claim requires the child to be killed). -/
theorem claim5_counterexample :
    (startNodeDebug initState "/tmp/x.js" .exitedBeforeAttach).2 =
      .errText "Error: Failed to start debug session - Node process exited before debugger attached" ∧
    (startNodeDebug initState "/tmp/x.js" .exitedBeforeAttach).1.processActive = true ∧
    ExtAction.killChild ∉ (startNodeDebug initState "/tmp/x.js" .exitedBeforeAttach).1.log := by
  decide

/-- C5 (amended): every failing `start_node_debug` (launcher failure,
connect failure, either enable failure) surfaces the start-failed error
wrapping the cause, but performs no teardown: the child keeps its handle
and is not killed, the socket is not closed, and the catalogs are left as
they were; after an enable failure the client handle even remains set. -/
theorem claim5_start_failure (st : DebugState) (path m : String)
    (h : st.clientActive = false) :
    StartFailSpec st path .exitedBeforeAttach ∧
    StartFailSpec st path (.cdpConnectFail m) ∧
    StartFailSpec st path (.debuggerEnableFail m) ∧
    StartFailSpec st path (.runtimeEnableFail m) ∧
    (startNodeDebug st path (.debuggerEnableFail m)).1.clientActive = true ∧
    (startNodeDebug st path (.runtimeEnableFail m)).1.clientActive = true := by
  refine ⟨?_, ?_, ?_, ?_, ?_, ?_⟩ <;>
    simp [StartFailSpec, startNodeDebug, startFailCause, h, List.drop_left]

/-- C5 witness. -/
theorem claim5_start_failure_witness :
    initState.clientActive = false ∧
    (StartFailSpec initState "/tmp/x.js" .exitedBeforeAttach ∧
     StartFailSpec initState "/tmp/x.js" (.cdpConnectFail "boom") ∧
     StartFailSpec initState "/tmp/x.js" (.debuggerEnableFail "boom") ∧
     StartFailSpec initState "/tmp/x.js" (.runtimeEnableFail "boom") ∧
     (startNodeDebug initState "/tmp/x.js" (.debuggerEnableFail "boom")).1.clientActive = true ∧
     (startNodeDebug initState "/tmp/x.js" (.runtimeEnableFail "boom")).1.clientActive = true) :=
  ⟨rfl, claim5_start_failure initState "/tmp/x.js" "boom" rfl⟩

/-- After `stop_debug_session`, both handles are null and every catalog is
empty. -/
theorem stop_clears (st : DebugState) :
    (stopDebugSession st).1.clientActive = false ∧
    (stopDebugSession st).1.processActive = false ∧
    (stopDebugSession st).1.scriptIdToUrl = [] ∧
    (stopDebugSession st).1.consoleMessages = [] ∧
    (stopDebugSession st).1.lastPausedParams = none ∧
    (stopDebugSession st).1.pauseMap = [] ∧
    (stopDebugSession st).1.currentPauseId = none ∧
    (stopDebugSession st).1.pauseCounter = 0 := by
  unfold stopDebugSession
  by_cases h1 : st.processActive <;> by_cases h2 : st.clientActive <;> simp [h1, h2]

/-- C3 counterexample: right after `stop_debug_session`, `list_scripts` and
`read_console` come back as successes (no error flag) instead of the
no-session error the claim demands for every tool other than start/stop. -/
theorem claim3_counterexample :
    (listScripts stoppedState).2 = .okScripts [] ∧
    (listScripts stoppedState).2.isError = false ∧
    (readConsole stoppedState).2 = .okConsole [] ∧
    (readConsole stoppedState).2.isError = false := by
  decide

/-- C3 (amended): after `stop_debug_session`, every tool that guards on the
session or pause state returns its error response (`no active debug
session` for session-guarded tools, `no active pause state` for
pause-guarded ones) — but `list_scripts` and `read_console` have no guard
and return successful (empty) payloads. -/
theorem claim3_after_stop (st : DebugState) (fp path m sid url e lvl : String)
    (line : Int) (sbc : SbcParams) (lp : LogpointParams) (pats : List String)
    (r1 : Except String String) (r2 : Except String BpReply) (r3 : Except String Unit)
    (oid : String) (mp : Option Nat) (env : PropsEnv) (opts : ExecOptions)
    (outcome : RaceOutcome) (ctl : CtlParams) (rp : RestartParams)
    (ro : Except String PausedEvent) (ep : EvalParams) (er : Except String EvalReply)
    (ip : InspectParams) (sp : StackParams) (pid : Option String) :
    (setBreakpoint (stopDebugSession st).1 fp line r1).2 = .errText noSessionMsg ∧
    (setBreakpointCondition (stopDebugSession st).1 sbc r2).2 = .errText noSessionMsg ∧
    (addLogpoint (stopDebugSession st).1 lp r2).2 = .errText noSessionMsg ∧
    (setExceptionBreakpoints (stopDebugSession st).1 m r3).2 = .errText noSessionMsg ∧
    (blackboxScripts (stopDebugSession st).1 pats r3).2 = .errText noSessionMsg ∧
    (getScriptSource (stopDebugSession st).1 (some sid) (some url) r1).2 = .errText noSessionMsg ∧
    (getObjectProperties (stopDebugSession st).1 oid mp env).2 = .errText noSessionMsg ∧
    (resumeExecution (stopDebugSession st).1 opts outcome env).2 = .errText noSessionMsg ∧
    (stepOver (stopDebugSession st).1 opts outcome env).2 = .errText noSessionMsg ∧
    (stepInto (stopDebugSession st).1 opts outcome env).2 = .errText noSessionMsg ∧
    (stepOut (stopDebugSession st).1 opts outcome env).2 = .errText noSessionMsg ∧
    (continueToLocation (stopDebugSession st).1 ctl outcome).2 = .errText noSessionMsg ∧
    (restartFrame (stopDebugSession st).1 rp ro).2 = .errText noPauseMsg ∧
    (evaluateExpression (stopDebugSession st).1 ep er).2 = .errText noPauseMsg ∧
    (inspectScopes (stopDebugSession st).1 ip env).2 = .errText noPauseMsg ∧
    (listCallStack (stopDebugSession st).1 sp).2 = .errText noPauseMsg ∧
    (getPauseInfo (stopDebugSession st).1 pid).2 = .errText noPauseMsg ∧
    (listScripts (stopDebugSession st).1).2 = .okScripts [] ∧
    (listScripts (stopDebugSession st).1).2.isError = false ∧
    (readConsole (stopDebugSession st).1).2 = .okConsole [] ∧
    (readConsole (stopDebugSession st).1).2.isError = false := by
  obtain ⟨h1, h2, h3, h4, h5, h6, h7, h8⟩ := stop_clears st
  refine ⟨?_, ?_, ?_, ?_, ?_, ?_, ?_, ?_, ?_, ?_, ?_, ?_, ?_, ?_, ?_, ?_, ?_, ?_, ?_, ?_, ?_⟩
  · simp [setBreakpoint, h1]
  · simp [setBreakpointCondition, h1]
  · simp [addLogpoint, h1]
  · simp [setExceptionBreakpoints, h1]
  · simp [blackboxScripts, h1]
  · simp [getScriptSource, h1]
  · simp [getObjectProperties, h1]
  · simp [resumeExecution, h1]
  · simp [stepOver, stepTool, h1]
  · simp [stepInto, stepTool, h1]
  · simp [stepOut, stepTool, h1]
  · simp [continueToLocation, h1]
  · simp [restartFrame, h1]
  · simp [evaluateExpression, h1]
  · simp [inspectScopes, h1]
  · simp [listCallStack, h1]
  · simp [getPauseInfo, h5]
  · simp [listScripts, h3]
  · simp [listScripts, h3, ToolResponse.isError]
  · simp [readConsole, h4]
  · simp [readConsole, h4, ToolResponse.isError]

/-- C4 counterexample: `resume_execution` with `includeScopes` lists the
global scope with all 7 of its properties (more than 5) and no
`truncated` flag, contradicting the claimed global truncation for
execution-control tools. -/
theorem claim4_counterexample :
    scopesOf (resumeExecution startedState { includeScopes := true } (.pausedEv evG) env7).2 =
      some [{ type := "global", vars := props7.map toVarOut, truncated := false }] ∧
    (props7.map toVarOut).length = 7 := by
  decide

/-- C4 (amended): the execution-control scope bundle lists at most 15 own
properties per scope but applies no global-scope special case (no 5-entry
cut, no `truncated` flag); only `inspect_scopes` truncates the global scope
to at most 5 entries with `truncated: true`, and its other scopes carry up
to `maxProps` (default 15, caller-selectable up to 50) properties. -/
theorem claim4_scope_truncation :
    (∀ (env : PropsEnv) (f : CallFrame), ∀ sc ∈ buildScopesExec env f,
        sc.vars.length ≤ 15 ∧ sc.truncated = false) ∧
    (∀ (env : PropsEnv) (maxProps : Nat) (f : CallFrame),
        ∀ sc ∈ buildScopesInspect env maxProps f,
        (sc.type = "global" → sc.vars.length ≤ 5 ∧ sc.truncated = true) ∧
        (sc.type ≠ "global" → sc.vars.length ≤ maxProps ∧ sc.truncated = false)) ∧
    (∀ (st : DebugState) (opts : ExecOptions) (ev : PausedEvent) (env : PropsEnv)
        (top : CallFrame),
        st.clientActive = true → opts.includeScopes = true →
        ev.callFrames.head? = some top →
        scopesOf (resumeExecution st opts (.pausedEv ev) env).2 =
          some (buildScopesExec env top)) := by
  refine ⟨?_, ?_, ?_⟩
  · intro env f sc hsc
    obtain ⟨s, hs, heq⟩ := List.mem_filterMap.mp hsc
    cases h : optTruthy s.objectId with
    | none => rw [h] at heq; simp at heq
    | some oid =>
      rw [h] at heq
      simp only [Option.some.injEq] at heq
      subst heq
      constructor
      · simp only [List.length_map]
        exact List.length_take_le 15 (propsFor env oid)
      · rfl
  · intro env maxProps f sc hsc
    obtain ⟨s, hs, heq⟩ := List.mem_filterMap.mp hsc
    cases h : optTruthy s.objectId with
    | none => rw [h] at heq; simp at heq
    | some oid =>
      rw [h] at heq
      dsimp only at heq
      by_cases hg : s.type = "global"
      · rw [if_pos hg] at heq
        simp only [Option.some.injEq] at heq
        subst heq
        refine ⟨fun _ => ⟨?_, rfl⟩, fun hne => absurd hg hne⟩
        exact List.length_take_le 5 (listPropsInspect env maxProps oid)
      · rw [if_neg hg] at heq
        simp only [Option.some.injEq] at heq
        subst heq
        refine ⟨fun hgl => absurd hgl hg, fun _ => ⟨?_, rfl⟩⟩
        simp only [listPropsInspect, List.length_map]
        exact List.length_take_le maxProps (propsFor env oid)
  · intro st opts ev env top hc hs ht
    simp [resumeExecution, execPausedBranch, hc, hs, ht, scopesOf]

/-- C4 witness. -/
theorem claim4_scope_truncation_witness :
    (∀ sc ∈ buildScopesExec env7 frameG, sc.vars.length ≤ 15 ∧ sc.truncated = false) ∧
    (∀ sc ∈ buildScopesInspect env7 15 frameG,
        (sc.type = "global" → sc.vars.length ≤ 5 ∧ sc.truncated = true) ∧
        (sc.type ≠ "global" → sc.vars.length ≤ 15 ∧ sc.truncated = false)) ∧
    scopesOf (resumeExecution startedState { includeScopes := true } (.pausedEv evG) env7).2 =
      some (buildScopesExec env7 frameG) :=
  ⟨fun sc h => claim4_scope_truncation.1 env7 frameG sc h,
   fun sc h => claim4_scope_truncation.2.1 env7 15 frameG sc h,
   claim4_scope_truncation.2.2 startedState { includeScopes := true } evG env7 frameG
     (by decide) rfl rfl⟩

/-- Delivering a pause event touches neither the listener list nor the log. -/
theorem foldListeners_fields (ev : PausedEvent) :
    ∀ (ls : List ListenerKind) (st : DebugState),
      ((ls.foldl (fun s l => runListener l ev s) st).pausedListeners = st.pausedListeners) ∧
      ((ls.foldl (fun s l => runListener l ev s) st).log = st.log) := by
  intro ls
  induction ls with
  | nil => intro st; exact ⟨rfl, rfl⟩
  | cons l rest ih =>
    intro st
    simp only [List.foldl_cons]
    obtain ⟨h1, h2⟩ := ih (runListener l ev st)
    constructor
    · rw [h1]; cases l <;> rfl
    · rw [h2]; cases l <;> rfl

/-- `firePaused` preserves the listener list. -/
theorem firePaused_listeners (ev : PausedEvent) (st : DebugState) :
    (firePaused ev st).pausedListeners = st.pausedListeners :=
  (foldListeners_fields ev st.pausedListeners st).1

/-- `firePaused` preserves the log. -/
theorem firePaused_log (ev : PausedEvent) (st : DebugState) :
    (firePaused ev st).log = st.log :=
  (foldListeners_fields ev st.pausedListeners st).2

/-- C7 counterexample: supplying both `file_path` and `url_regex` does not
produce the missing-locator error — the breakpoint is set through
`url_regex` and the call succeeds. -/
theorem claim7_counterexample :
    (setBreakpointCondition startedState
      { filePath := some "/tmp/a.js", urlRegex := some "rx", line := 3, condition := "x>0" }
      (.ok { breakpointId := "b1", locations := [] })).2 = .okBp "b1" [] none ∧
    ((setBreakpointCondition startedState
      { filePath := some "/tmp/a.js", urlRegex := some "rx", line := 3, condition := "x>0" }
      (.ok { breakpointId := "b1", locations := [] })).1.log.drop startedState.log.length) =
      [.send (.setBreakpointByUrl none (some "rx") 2 0 (some "x>0"))] := by
  decide

/-- C7 (amended): `set_breakpoint_condition` and `add_logpoint` fail with
the missing-locator error (and change nothing) only when *neither* locator
is truthy; when both are supplied, `url_regex` takes precedence and a
breakpoint is set. -/
theorem claim7_locator (st : DebugState) (p : SbcParams) (lp : LogpointParams)
    (r : Except String BpReply) (h : st.clientActive = true) :
    (optTruthy p.urlRegex = none → optTruthy p.filePath = none →
      (setBreakpointCondition st p r).2 = .errText "Error: Provide filePath or urlRegex." ∧
      (setBreakpointCondition st p r).1 = st) ∧
    (∀ rx, optTruthy p.urlRegex = some rx →
      (setBreakpointCondition st p r).1.log = st.log ++
        [.send (.setBreakpointByUrl none (some rx) (p.line - 1) (p.column.getD 0)
          (some p.condition))]) ∧
    (optTruthy lp.urlRegex = none → optTruthy lp.filePath = none →
      (addLogpoint st lp r).2 = .errText "Error: Provide filePath or urlRegex." ∧
      (addLogpoint st lp r).1 = st) ∧
    (∀ rx, optTruthy lp.urlRegex = some rx →
      (addLogpoint st lp r).1.log = st.log ++
        [.send (.setBreakpointByUrl none (some rx) (lp.line - 1) (lp.column.getD 0)
          (some (toCondition lp.message)))]) := by
  refine ⟨?_, ?_, ?_, ?_⟩
  · intro h1 h2
    simp [setBreakpointCondition, h, h1, h2]
  · intro rx hrx
    cases r <;> simp [setBreakpointCondition, h, hrx]
  · intro h1 h2
    simp [addLogpoint, h, h1, h2]
  · intro rx hrx
    cases r <;> simp [addLogpoint, h, hrx]

/-- C7 witness. -/
theorem claim7_locator_witness :
    (setBreakpointCondition startedState { line := 3, condition := "c" }
      (.ok { breakpointId := "b1", locations := [] })).2 =
        .errText "Error: Provide filePath or urlRegex." ∧
    (setBreakpointCondition startedState
      { filePath := some "/tmp/a.js", urlRegex := some "rx", line := 3, condition := "c" }
      (.ok { breakpointId := "b1", locations := [] })).1.log = startedState.log ++
        [.send (.setBreakpointByUrl none (some "rx") 2 0 (some "c"))] ∧
    (addLogpoint startedState { line := 3, message := "m" }
      (.ok { breakpointId := "b1", locations := [] })).2 =
        .errText "Error: Provide filePath or urlRegex." ∧
    (addLogpoint startedState
      { filePath := some "/tmp/a.js", urlRegex := some "rx", line := 3, message := "m" }
      (.ok { breakpointId := "b1", locations := [] })).1.log = startedState.log ++
        [.send (.setBreakpointByUrl none (some "rx") 2 0 (some (toCondition "m")))] :=
  ⟨((claim7_locator startedState { line := 3, condition := "c" } { line := 3, message := "m" }
      (.ok { breakpointId := "b1", locations := [] }) (by decide)).1 rfl rfl).1,
   (claim7_locator startedState
      { filePath := some "/tmp/a.js", urlRegex := some "rx", line := 3, condition := "c" }
      { filePath := some "/tmp/a.js", urlRegex := some "rx", line := 3, message := "m" }
      (.ok { breakpointId := "b1", locations := [] }) (by decide)).2.1 "rx" (by decide),
   ((claim7_locator startedState { line := 3, condition := "c" } { line := 3, message := "m" }
      (.ok { breakpointId := "b1", locations := [] }) (by decide)).2.2.1 rfl rfl).1,
   (claim7_locator startedState
      { filePath := some "/tmp/a.js", urlRegex := some "rx", line := 3, condition := "c" }
      { filePath := some "/tmp/a.js", urlRegex := some "rx", line := 3, message := "m" }
      (.ok { breakpointId := "b1", locations := [] }) (by decide)).2.2.2 "rx" (by decide)⟩

/-- C8 counterexample: `set_breakpoint_condition` with 1-based column 5
sends `columnNumber = 5` to the target unchanged, not the 0-based `4` the
claim requires. -/
theorem claim8_counterexample :
    ((setBreakpointCondition startedState
      { filePath := some "/tmp/a.js", line := 3, column := some 5, condition := "c" }
      (.ok { breakpointId := "b1", locations := [] })).1.log.drop startedState.log.length) =
      [.send (.setBreakpointByUrl (some "file:///tmp/a.js") none 2 5 (some "c"))] ∧
    (5 : Int) ≠ 5 - 1 := by
  decide

/-- C8 (amended): 1-based lines are converted to 0-based at the boundary by
every breakpoint/continue tool, and response coordinates are converted back
to 1-based; the optional column is converted only by
`continue_to_location`, while `set_breakpoint_condition` and `add_logpoint`
forward their column argument unchanged (defaulting to 0) and
`set_breakpoint` always sends column 0. -/
theorem claim8_coordinate_conversion (st : DebugState) (fp : String) (line : Int)
    (r1 : Except String String) (p : SbcParams) (lp : LogpointParams)
    (r2 : Except String BpReply) (ctl : CtlParams) (outcome : RaceOutcome)
    (fpath sid : String) (m : List (String × String)) (f : CallFrame)
    (h : st.clientActive = true) :
    (setBreakpoint st fp line r1).1.log = st.log ++
      [.send (.setBreakpointByUrl (some (toFileUrl fp)) none (line - 1) 0 none)] ∧
    (optTruthy p.urlRegex = none → optTruthy p.filePath = some fpath →
      (setBreakpointCondition st p r2).1.log = st.log ++
        [.send (.setBreakpointByUrl (some (toFileUrl fpath)) none (p.line - 1)
          (p.column.getD 0) (some p.condition))]) ∧
    (optTruthy lp.urlRegex = none → optTruthy lp.filePath = some fpath →
      (addLogpoint st lp r2).1.log = st.log ++
        [.send (.setBreakpointByUrl (some (toFileUrl fpath)) none (lp.line - 1)
          (lp.column.getD 0) (some (toCondition lp.message)))]) ∧
    (optTruthy ((st.scriptIdToUrl.find? (fun e => e.2 = toFileUrl ctl.filePath)).map (·.1)) =
        some sid →
      (continueToLocation st ctl outcome).1.log = st.log ++
        [.send (.continueToLoc sid (ctl.line - 1) (ctl.column.getD 1 - 1))]) ∧
    (summarizeFrame m f).line = f.location.lineNumber + 1 ∧
    (summarizeFrame m f).column = f.location.columnNumber.getD 0 + 1 := by
  refine ⟨?_, ?_, ?_, ?_, rfl, rfl⟩
  · cases r1 <;> simp [setBreakpoint, h]
  · intro h1 h2
    cases r2 <;> simp [setBreakpointCondition, h, h1, h2]
  · intro h1 h2
    cases r2 <;> simp [addLogpoint, h, h1, h2]
  · intro hsid
    cases outcome with
    | cmdFail msg => simp [continueToLocation, h, hsid]
    | exited c => simp [continueToLocation, h, hsid]
    | pausedEv ev =>
      simp only [continueToLocation, h, hsid, Bool.not_true]
      cases hh : ev.callFrames.head? <;>
        simp [hh, firePaused_log]

/-- C8 witness. -/
theorem claim8_coordinate_conversion_witness :
    startedState.clientActive = true ∧
    ((setBreakpoint startedState "/tmp/a.js" 3 (.ok "b0")).1.log = startedState.log ++
      [.send (.setBreakpointByUrl (some "file:///tmp/a.js") none 2 0 none)] ∧
     (optTruthy (none : Option String) = none → optTruthy (some "/tmp/a.js") = some "/tmp/a.js" →
      (setBreakpointCondition startedState
        { filePath := some "/tmp/a.js", line := 3, column := some 5, condition := "c" }
        (.ok { breakpointId := "b1", locations := [] })).1.log = startedState.log ++
        [.send (.setBreakpointByUrl (some "file:///tmp/a.js") none 2 5 (some "c"))]) ∧
     (optTruthy (none : Option String) = none → optTruthy (some "/tmp/a.js") = some "/tmp/a.js" →
      (addLogpoint startedState
        { filePath := some "/tmp/a.js", line := 3, column := some 5, message := "m" }
        (.ok { breakpointId := "b1", locations := [] })).1.log = startedState.log ++
        [.send (.setBreakpointByUrl (some "file:///tmp/a.js") none 2 5 (some (toCondition "m")))]) ∧
     (optTruthy ((startedState.scriptIdToUrl.find?
          (fun e => e.2 = toFileUrl "/tmp/sample.js")).map (·.1)) = some "s1" →
      (continueToLocation startedState { filePath := "/tmp/sample.js", line := 3, column := some 5 }
        (.exited (some 0))).1.log = startedState.log ++
        [.send (.continueToLoc "s1" 2 4)]) ∧
     (summarizeFrame startedState.scriptIdToUrl frame1).line = loc1.lineNumber + 1 ∧
     (summarizeFrame startedState.scriptIdToUrl frame1).column = loc1.columnNumber.getD 0 + 1) :=
  ⟨by decide,
   claim8_coordinate_conversion startedState "/tmp/a.js" 3 (.ok "b0")
     { filePath := some "/tmp/a.js", line := 3, column := some 5, condition := "c" }
     { filePath := some "/tmp/a.js", line := 3, column := some 5, message := "m" }
     (.ok { breakpointId := "b1", locations := [] })
     { filePath := "/tmp/sample.js", line := 3, column := some 5 } (.exited (some 0))
     "/tmp/a.js" "s1" startedState.scriptIdToUrl frame1 (by decide)⟩

/-- C9 counterexample: `get_pause_info` with a pause id missing from the
catalog does not return the invalid-pause error; the handler dereferences
`undefined`, and its catch reports a generic failure instead. -/
theorem claim9_counterexample :
    (getPauseInfo startedState (some "p99")).2 =
      .errText ("Error: Failed to get pause info - " ++ tyErrUndefined) ∧
    (getPauseInfo startedState (some "p99")).2 ≠ .errText invalidPauseMsg := by
  decide

/-- C9 (amended): with an active pause, a non-empty pause id absent from
the catalog makes `restart_frame`, `evaluate_expression`, `inspect_scopes`
and `list_call_stack` return the invalid-pause error, while
`get_pause_info` reports a generic wrapped failure instead (an empty pause
id falls back to the current pause for all of them); `restart_frame` with a
frame index out of range of the resolved pause returns the invalid-frame
error. -/
theorem claim9_invalid_pause (st : DebugState) (pid : String) (pl : PausedEvent)
    (i : Nat) (o : Except String PausedEvent) (e : String)
    (er : Except String EvalReply) (env : PropsEnv)
    (hc : st.clientActive = true) (hl : st.lastPausedParams = some pl)
    (hpid : pid ≠ "") (hmem : objGet st.pauseMap pid = none) :
    (restartFrame st { frameIndex := i, pauseId := some pid } o).2 =
      .errText invalidPauseMsg ∧
    (evaluateExpression st { expr := e, pauseId := some pid } er).2 =
      .errText invalidPauseMsg ∧
    (inspectScopes st { pauseId := some pid } env).2 = .errText invalidPauseMsg ∧
    (listCallStack st { pauseId := some pid }).2 = .errText invalidPauseMsg ∧
    (getPauseInfo st (some pid)).2 =
      .errText ("Error: Failed to get pause info - " ++ tyErrUndefined) ∧
    ("Error: Failed to get pause info - " ++ tyErrUndefined) ≠ invalidPauseMsg ∧
    (∀ (pidOpt : Option String) (pause : PausedEvent),
      resolvePause st pidOpt = some pause →
      pause.callFrames.get? i = none →
      (restartFrame st { frameIndex := i, pauseId := pidOpt } o).2 =
        .errText invalidFrameMsg) := by
  have hres : resolvePause st (some pid) = none := by
    simp [resolvePause, optTruthy, hpid, hmem]
  refine ⟨?_, ?_, ?_, ?_, ?_, by decide, ?_⟩
  · simp [restartFrame, hc, hl, hres]
  · simp [evaluateExpression, hc, hl, hres]
  · simp [inspectScopes, hc, hl, hres]
  · simp [listCallStack, hc, hl, hres]
  · simp [getPauseInfo, hl, hres]
  · intro pidOpt pause hrp hfr
    rw [List.get?_eq_getElem?] at hfr
    simp [restartFrame, hc, hl, hrp, hfr]

/-- C9 witness. -/
theorem claim9_invalid_pause_witness :
    ((restartFrame startedState { frameIndex := 5, pauseId := some "p99" } (.ok ev1)).2 =
      .errText invalidPauseMsg ∧
    (evaluateExpression startedState { expr := "1", pauseId := some "p99" } (.error "m")).2 =
      .errText invalidPauseMsg ∧
    (inspectScopes startedState { pauseId := some "p99" } []).2 = .errText invalidPauseMsg ∧
    (listCallStack startedState { pauseId := some "p99" }).2 = .errText invalidPauseMsg ∧
    (getPauseInfo startedState (some "p99")).2 =
      .errText ("Error: Failed to get pause info - " ++ tyErrUndefined) ∧
    ("Error: Failed to get pause info - " ++ tyErrUndefined) ≠ invalidPauseMsg ∧
    (∀ (pidOpt : Option String) (pause : PausedEvent),
      resolvePause startedState pidOpt = some pause →
      pause.callFrames.get? 5 = none →
      (restartFrame startedState { frameIndex := 5, pauseId := pidOpt } (.ok ev1)).2 =
        .errText invalidFrameMsg)) ∧
    resolvePause startedState none = some ev1 ∧
    ev1.callFrames.get? 5 = none := by
  refine ⟨claim9_invalid_pause startedState "p99" ev1 5 (.ok ev1) "1" (.error "m") []
    (by decide) (by decide) (by decide) (by decide), by decide, by decide⟩


/-- Backtick escaping distributes over concatenation. -/
theorem escBtL_append (l m : List Char) : escBtL (l ++ m) = escBtL l ++ escBtL m := by
  induction l with
  | nil => rfl
  | cons c cs ih => by_cases h : c = btick <;> simp [escBtL, h, ih]

/-- Unfolding `braceFreeB` into a membership statement. -/
theorem braceFreeB_iff {l : List Char} :
    braceFreeB l = true ↔ ∀ x ∈ l, x ≠ lbrace ∧ x ≠ rbrace := by
  simp [braceFreeB, List.all_eq_true]

/-- Every character of an escaped list is a backslash or came from the
original list. -/
theorem mem_escBtL {l : List Char} {x : Char} (hx : x ∈ escBtL l) : x = '\\' ∨ x ∈ l := by
  induction l with
  | nil => simp [escBtL] at hx
  | cons c cs ih =>
    by_cases hb : c = btick
    · rw [show escBtL (c :: cs) = '\\' :: btick :: escBtL cs from by simp [escBtL, hb]] at hx
      rcases List.mem_cons.mp hx with h1 | hx2
      · exact Or.inl h1
      · rcases List.mem_cons.mp hx2 with h3 | h4
        · subst h3
          rw [hb]
          exact Or.inr (List.mem_cons_self _ _)
        · rcases ih h4 with h5 | h6
          · exact Or.inl h5
          · exact Or.inr (List.mem_cons_of_mem _ h6)
    · rw [show escBtL (c :: cs) = c :: escBtL cs from by simp [escBtL, hb]] at hx
      rcases List.mem_cons.mp hx with h1 | h2
      · subst h1
        exact Or.inr (List.mem_cons_self _ _)
      · rcases ih h2 with h5 | h6
        · exact Or.inl h5
        · exact Or.inr (List.mem_cons_of_mem _ h6)

/-- Backtick escaping introduces no braces. -/
theorem escBtL_braceFree {l : List Char} (h : braceFreeB l = true) :
    braceFreeB (escBtL l) = true := by
  rw [braceFreeB_iff] at h ⊢
  intro x hx
  rcases mem_escBtL hx with h1 | h2
  · subst h1
    exact ⟨by decide, by decide⟩
  · exact h x h2

/-- Backtick escaping preserves non-emptiness. -/
theorem escBtL_ne_nil {l : List Char} (h : l ≠ []) : escBtL l ≠ [] := by
  cases l with
  | nil => exact absurd rfl h
  | cons c cs => by_cases hb : c = btick <;> simp [escBtL, hb]

/-- The interpolation scan passes over a brace-free chunk unchanged. -/
theorem interp_append_braceFree {l : List Char} (m : List Char)
    (h : braceFreeB l = true) : interpSegs (l ++ m) = l ++ interpSegs m := by
  induction l with
  | nil => rfl
  | cons c cs ih =>
    simp only [braceFreeB, List.all_cons, Bool.and_eq_true, decide_eq_true_eq] at h
    obtain ⟨⟨h1, h2⟩, h3⟩ := h
    rw [List.cons_append, interpSegs.eq_def]
    simp only [if_neg h1]
    rw [ih (by simpa [braceFreeB] using h3)]
    rfl

/-- The interpolation scan rewrites a brace-delimited non-empty brace-free
run into a template-literal interpolation. -/
theorem interp_hole {e : List Char} (m : List Char) (he : braceFreeB e = true)
    (hne : e ≠ []) :
    interpSegs (lbrace :: (e ++ rbrace :: m)) =
      dollar :: lbrace :: (e ++ rbrace :: interpSegs m) := by
  have hall : ∀ a ∈ e, (fun d => decide (d ≠ rbrace)) a = true := by
    intro a ha
    rw [braceFreeB_iff] at he
    exact decide_eq_true (he a ha).2
  have hdrop : List.dropWhile (fun d => decide (d ≠ rbrace)) (e ++ rbrace :: m) =
      rbrace :: m := by
    rw [List.dropWhile_append_of_pos hall, List.dropWhile_cons_of_neg (by simp)]
  have htake : List.takeWhile (fun d => decide (d ≠ rbrace)) (e ++ rbrace :: m) = e := by
    rw [List.takeWhile_append_of_pos hall, List.takeWhile_cons_of_neg (by simp)]
    simp
  have hemp : e.isEmpty = false := by
    cases e with
    | nil => exact absurd rfl hne
    | cons _ _ => rfl
  rw [interpSegs.eq_def]
  dsimp only
  rw [if_pos rfl]
  split
  · rename_i heq
    rw [hdrop] at heq
    simp at heq
  · rename_i head tail heq
    rw [hdrop] at heq
    injection heq with h1 h2
    subst h2
    rw [htake]
    simp [hemp]

/-- Escaping then interpolating a well-formed structured message yields
exactly the per-part expansion. -/
theorem interp_escape_expand :
    ∀ ps : List MsgPart, wfMsgB ps = true →
      interpSegs (escBtL (renderList ps)) = expandMsg ps := by
  intro ps
  induction ps with
  | nil =>
    intro h
    rw [show renderList [] = [] from rfl, show escBtL [] = [] from rfl,
      interpSegs.eq_def]
    rfl
  | cons p rest ih =>
    intro h
    simp only [wfMsgB, List.all_cons, Bool.and_eq_true] at h
    obtain ⟨hp, hrest⟩ := h
    have ihr := ih (by simpa [wfMsgB] using hrest)
    rw [show renderList (p :: rest) = p.render ++ renderList rest from rfl]
    rw [escBtL_append]
    cases p with
    | lit s =>
      have hbf : braceFreeB s.data = true := by simpa [MsgPart.wfB] using hp
      rw [show (MsgPart.lit s).render = s.data from rfl]
      rw [interp_append_braceFree _ (escBtL_braceFree hbf), ihr]
      rw [show expandMsg (MsgPart.lit s :: rest) = escBtL s.data ++ expandMsg rest from rfl]
    | hole e =>
      simp only [MsgPart.wfB, Bool.and_eq_true, Bool.not_eq_true'] at hp
      obtain ⟨hne', hbf⟩ := hp
      have hne : e.data ≠ [] := by
        cases hd : e.data with
        | nil => rw [hd] at hne'; simp at hne'
        | cons _ _ => simp
      rw [show (MsgPart.hole e).render = lbrace :: (e.data ++ [rbrace]) from rfl]
      have h1 : escBtL (lbrace :: (e.data ++ [rbrace])) =
          lbrace :: (escBtL e.data ++ [rbrace]) := by
        have hl : ¬ (lbrace = btick) := by decide
        have hr : ¬ (rbrace = btick) := by decide
        simp [escBtL, hl, hr, escBtL_append]
      rw [h1]
      rw [show lbrace :: (escBtL e.data ++ [rbrace]) ++ escBtL (renderList rest) =
          lbrace :: (escBtL e.data ++ rbrace :: escBtL (renderList rest)) by simp]
      rw [interp_hole _ (escBtL_braceFree hbf) (escBtL_ne_nil hne), ihr]
      rw [show expandMsg (MsgPart.hole e :: rest) =
          (dollar :: lbrace :: escBtL e.data ++ [rbrace]) ++ expandMsg rest from rfl]
      simp

/-- C6: for every message composed of brace-free literal runs and non-empty
brace-free `\x7bexpr\x7d` holes, the condition `add_logpoint` installs is a
`console.log` of the backtick template literal in which every hole has
become a `$\x7bexpr\x7d` interpolation and every backtick is escaped,
sequenced with the expression `false` (whose value is the completion value
of the condition, so the breakpoint never pauses); and for every message
whatsoever the installed condition ends in the characters `); false`. -/
theorem claim6_logpoint_condition (ps : List MsgPart) (h : wfMsgB ps = true)
    (msg : String) :
    toCondition (renderMsg ps) =
      "console.log(" ++ String.mk (btick :: (expandMsg ps ++ [btick])) ++ "); false" ∧
    ∃ pre : List Char, (toCondition msg).data = pre ++ ("); false").data := by
  constructor
  · show "console.log(" ++
        String.mk (btick :: (interpSegs (escBtL (renderMsg ps).data) ++ [btick])) ++
        "); false" = _
    have hdata : (renderMsg ps).data = renderList ps := rfl
    rw [hdata, interp_escape_expand ps h]
  · refine ⟨("console.log(").data ++ (btick :: (interpSegs (escBtL msg.data) ++ [btick])), ?_⟩
    show ("console.log(" ++
        String.mk (btick :: (interpSegs (escBtL msg.data) ++ [btick])) ++ "); false").data = _
    simp [String.data_append, List.append_assoc]

/-- C6 witness. -/
theorem claim6_logpoint_condition_witness :
    toCondition (renderMsg [MsgPart.lit "x=", MsgPart.hole "x"]) =
      "console.log(" ++
        String.mk (btick ::
          (expandMsg [MsgPart.lit "x=", MsgPart.hole "x"] ++ [btick])) ++ "); false" ∧
    ∃ pre : List Char, (toCondition "x=\x7bx\x7d").data = pre ++ ("); false").data :=
  claim6_logpoint_condition [MsgPart.lit "x=", MsgPart.hole "x"] (by decide) "x=\x7bx\x7d"

/-- The pause branch of the resume/step tools never changes the listener
list beyond what was registered before the race. -/
theorem execPausedBranch_listeners (st1 : DebugState) (opts : ExecOptions)
    (ev : PausedEvent) (env : PropsEnv) (errPre : String) :
    (execPausedBranch st1 opts ev env errPre).1.pausedListeners = st1.pausedListeners := by
  unfold execPausedBranch
  split
  · simp [firePaused_listeners]
  · by_cases hc : opts.includeScopes <;> simp [hc, firePaused_listeners]

/-- C10: every execution-control tool registers one more permanent mint
listener (none is ever removed), and a subsequent paused event runs the
start listener plus all `n` accumulated mint listeners in registration
order: the counter advances by `n`, `n` fresh catalog entries (with
pairwise distinct ids, all holding that same event) are inserted, and the
current pause id is the one minted by the last listener to run. -/
theorem claim10_listener_accumulation :
    (∀ (st : DebugState) (opts : ExecOptions) (outcome : RaceOutcome) (env : PropsEnv),
      st.clientActive = true →
      (resumeExecution st opts outcome env).1.pausedListeners =
        st.pausedListeners ++ [ListenerKind.mintL]) ∧
    (∀ (st : DebugState) (opts : ExecOptions) (outcome : RaceOutcome) (env : PropsEnv),
      st.clientActive = true →
      (stepOver st opts outcome env).1.pausedListeners =
        st.pausedListeners ++ [ListenerKind.mintL]) ∧
    (∀ (st : DebugState) (opts : ExecOptions) (outcome : RaceOutcome) (env : PropsEnv),
      st.clientActive = true →
      (stepInto st opts outcome env).1.pausedListeners =
        st.pausedListeners ++ [ListenerKind.mintL]) ∧
    (∀ (st : DebugState) (opts : ExecOptions) (outcome : RaceOutcome) (env : PropsEnv),
      st.clientActive = true →
      (stepOut st opts outcome env).1.pausedListeners =
        st.pausedListeners ++ [ListenerKind.mintL]) ∧
    (∀ (st : DebugState) (p : CtlParams) (outcome : RaceOutcome) (sid : String),
      st.clientActive = true →
      optTruthy ((st.scriptIdToUrl.find? (fun e => e.2 = toFileUrl p.filePath)).map (·.1)) =
        some sid →
      (continueToLocation st p outcome).1.pausedListeners =
        st.pausedListeners ++ [ListenerKind.mintL]) ∧
    (∀ (st : DebugState) (p : RestartParams) (o : Except String PausedEvent)
      (pause : PausedEvent) (frame : CallFrame),
      st.clientActive = true → st.lastPausedParams.isNone = false →
      resolvePause st p.pauseId = some pause →
      pause.callFrames.get? p.frameIndex = some frame →
      (restartFrame st p o).1.pausedListeners =
        st.pausedListeners ++ [ListenerKind.mintL]) ∧
    (∀ (st : DebugState) (ev : PausedEvent) (n : Nat),
      GoodMap st →
      st.pausedListeners = ListenerKind.startL :: List.replicate n ListenerKind.mintL →
      (firePaused ev st).pauseCounter = st.pauseCounter + n ∧
      (firePaused ev st).pauseMap.map Prod.fst =
        st.pauseMap.map Prod.fst ++
          (List.range n).map (fun k => mkPid (st.pauseCounter + k + 1)) ∧
      ((List.range n).map (fun k => mkPid (st.pauseCounter + k + 1))).Nodup ∧
      (∀ k, k < n →
        objGet (firePaused ev st).pauseMap (mkPid (st.pauseCounter + k + 1)) = some ev) ∧
      (0 < n → (firePaused ev st).currentPauseId = some (mkPid (st.pauseCounter + n)))) := by
  refine ⟨?_, ?_, ?_, ?_, ?_, ?_, ?_⟩
  · intro st opts outcome env h
    cases outcome with
    | cmdFail m => simp [resumeExecution, h]
    | exited c => simp [resumeExecution, h, teardownOnExitResume]
    | pausedEv ev =>
      simp only [resumeExecution, h, Bool.not_true, Bool.false_eq_true, if_false]
      rw [execPausedBranch_listeners]
  · intro st opts outcome env h
    cases outcome with
    | cmdFail m => simp [stepOver, stepTool, h]
    | exited c => simp [stepOver, stepTool, h, teardownOnExitStep]
    | pausedEv ev =>
      simp only [stepOver, stepTool, h, Bool.not_true, Bool.false_eq_true, if_false]
      rw [execPausedBranch_listeners]
  · intro st opts outcome env h
    cases outcome with
    | cmdFail m => simp [stepInto, stepTool, h]
    | exited c => simp [stepInto, stepTool, h, teardownOnExitStep]
    | pausedEv ev =>
      simp only [stepInto, stepTool, h, Bool.not_true, Bool.false_eq_true, if_false]
      rw [execPausedBranch_listeners]
  · intro st opts outcome env h
    cases outcome with
    | cmdFail m => simp [stepOut, stepTool, h]
    | exited c => simp [stepOut, stepTool, h, teardownOnExitStep]
    | pausedEv ev =>
      simp only [stepOut, stepTool, h, Bool.not_true, Bool.false_eq_true, if_false]
      rw [execPausedBranch_listeners]
  · intro st p outcome sid h hsid
    cases outcome with
    | cmdFail m => simp [continueToLocation, h, hsid]
    | exited c => simp [continueToLocation, h, hsid]
    | pausedEv ev =>
      simp only [continueToLocation, h, hsid, Bool.not_true, Bool.false_eq_true, if_false]
      cases hh : ev.callFrames.head? <;> simp [hh, firePaused_listeners]
  · intro st p o pause frame hc hl hrp hfr
    rw [List.get?_eq_getElem?] at hfr
    cases o with
    | error m => simp [restartFrame, hc, hl, hrp, hfr]
    | ok ev =>
      simp only [restartFrame, hc, hl, hrp, hfr, Bool.not_true, Bool.false_eq_true,
        Bool.or_false, if_false]
      cases hh : ev.callFrames.head? <;> simp [hh, hrp, hfr, firePaused_listeners]
  · intro st ev n hg hl
    have hfp : firePaused ev st =
        (List.replicate n ListenerKind.mintL).foldl
          (fun s l => runListener l ev s) (runListener ListenerKind.startL ev st) := by
      rw [firePaused, hl]
      rfl
    obtain ⟨hc, hk, hold, hnew, hcur⟩ :=
      mintFold ev n (runListener ListenerKind.startL ev st)
        (goodMap_runListener ListenerKind.startL ev hg)
    rw [hfp]
    refine ⟨hc, hk, ?_, hnew, hcur⟩
    apply List.Nodup.map
    · intro a b hab
      have := mkPid_inj hab
      omega
    · exact List.nodup_range n

/-- C10 witness. -/
theorem claim10_listener_accumulation_witness :
    ((resumeExecution twoExecState {} (.pausedEv ev1) []).1.pausedListeners =
      twoExecState.pausedListeners ++ [ListenerKind.mintL]) ∧
    ((firePaused evG twoExecState).pauseCounter = twoExecState.pauseCounter + 2 ∧
     (firePaused evG twoExecState).pauseMap.map Prod.fst =
       twoExecState.pauseMap.map Prod.fst ++
         (List.range 2).map (fun k => mkPid (twoExecState.pauseCounter + k + 1)) ∧
     ((List.range 2).map (fun k => mkPid (twoExecState.pauseCounter + k + 1))).Nodup ∧
     (∀ k, k < 2 → objGet (firePaused evG twoExecState).pauseMap
        (mkPid (twoExecState.pauseCounter + k + 1)) = some evG) ∧
     (0 < 2 → (firePaused evG twoExecState).currentPauseId =
        some (mkPid (twoExecState.pauseCounter + 2)))) :=
  ⟨claim10_listener_accumulation.1 twoExecState {} (.pausedEv ev1) [] (by decide),
   claim10_listener_accumulation.2.2.2.2.2.2 twoExecState evG 2
     (goodMap_runOps
       [.opStart "/tmp/sample.js" (.attached [("s1", "file:///tmp/sample.js")] ev1),
        .opResume {} (.pausedEv ev1) [],
        .opStepOver {} (.pausedEv ev1) []])
     (by decide)⟩
